import Mathlib

/-!
# Onboarding workflow of the in-memory service

A shallow embedding of `inmem/onboarding.go` (`IsOnboarding`,
`PutOnboardingStatus`, `Generate`).  The service methods that `Generate`
drives (`CreateUser`, `SetPassword`, `CreateOrganization`, `CreateBucket`,
`CreateAuthorization`) and the permission helpers of the `platform` package
(`OperPermissions`, `OrgAdminPermissions`, `NewPermissionAtID`) are declared
in other files; they enter the development as the fields of `Collaborators`.

Pointers are modelled by explicit passing: a method that receives `*T`
returns the record as it left it, next to the new service state and the
error it returned.
-/

set_option autoImplicit false

namespace Onboarding

/-! ## Data model -/

/-- Identifiers: `platform.ID`, an unsigned integer declared outside this unit. -/
abbrev ID := Nat

/-- Error kinds named by the code: `platform.EConflict`, `platform.EEmptyValue`
and `platform.EInvalid`; `other` stands for every further kind of the platform. -/
inductive ErrCode where
  | EConflict
  | EEmptyValue
  | EInvalid
  | other (name : String)
  deriving DecidableEq, Repr

/-- Values of Go's `error` interface: a `*platform.Error` with its `Code` and
`Msg`, or an error of some other dynamic type, kept by its text. -/
inductive GoError where
  | platform (Code : ErrCode) (Msg : String)
  | foreign (text : String)
  deriving DecidableEq, Repr

/-- The `platform.User` record, with the fields the workflow touches. -/
structure User where
  ID : Onboarding.ID := 0
  Name : String := ""
  deriving DecidableEq, Repr

/-- The `platform.Organization` record. -/
structure Organization where
  ID : Onboarding.ID := 0
  Name : String := ""
  deriving DecidableEq, Repr

/-- The `platform.Bucket` record; `RetentionPeriod` is a `time.Duration`, a
signed 64-bit count of nanoseconds. -/
structure Bucket where
  ID : Onboarding.ID := 0
  Name : String := ""
  Organization : String := ""
  OrganizationID : Onboarding.ID := 0
  RetentionPeriod : Int := 0
  deriving DecidableEq, Repr

/-- Actions of a permission: `platform.ReadAction` and `platform.WriteAction`. -/
inductive Action where
  | ReadAction
  | WriteAction
  deriving DecidableEq, Repr

/-- Resource kinds: `platform.BucketsResource` is the one the code names. -/
inductive ResourceType where
  | BucketsResource
  | other (name : String)
  deriving DecidableEq, Repr

/-- Modelled from the spec: the `platform.Permission` type is declared outside
this unit; a permission is a resource kind, an action kind and an optional
target identifier. -/
structure Permission where
  Action : Onboarding.Action
  Resource : ResourceType
  ID : Option Onboarding.ID := none
  deriving DecidableEq, Repr

/-- The `platform.Authorization` record. -/
structure Authorization where
  ID : Onboarding.ID := 0
  UserID : Onboarding.ID := 0
  OrgID : Onboarding.ID := 0
  Description : String := ""
  Permissions : List Permission := []
  deriving DecidableEq, Repr

/-- The `platform.OnboardingRequest` record; `RetentionPeriod` is an unsigned
number of hours (a Go `uint`, below `2 ^ 64`). -/
structure OnboardingRequest where
  User : String := ""
  Password : String := ""
  Org : String := ""
  Bucket : String := ""
  RetentionPeriod : Nat := 0
  deriving DecidableEq, Repr

/-- The `platform.OnboardingResults` record. -/
structure OnboardingResults where
  User : Onboarding.User
  Org : Organization
  Bucket : Onboarding.Bucket
  Auth : Authorization
  deriving DecidableEq, Repr

/-! ## The onboarding key-value store -/

/-- The `sync.Map` behind `onboardingKV`, as an association list.  The only
`Store` on it is the one of `PutOnboardingStatus`, so its values are booleans. -/
structure SyncMap where
  entries : List (String × Bool) := []
  deriving DecidableEq, Repr

/-- The `sync.Map.Load` method: the value stored under `key`, `none` for `ok = false`. -/
def SyncMap.Load (m : SyncMap) (key : String) : Option Bool :=
  m.entries.lookup key

/-- The `sync.Map.Store` method: sets the value for `key`, replacing an earlier one. -/
def SyncMap.Store (m : SyncMap) (key : String) (value : Bool) : SyncMap :=
  ⟨(key, value) :: m.entries.filter (fun p => p.1 != key)⟩

/-- The constant `onboardingKey`. -/
def onboardingKey : String := "onboarding_key"

/-- The in-memory `Service`: the onboarding map and, in `stores`, every other
field of the struct (users, passwords, organizations, buckets, authorizations,
generators), which this unit never reads. -/
structure Service (σ : Type) where
  onboardingKV : SyncMap := {}
  stores : σ

/-! ## Collaborators and the record of their calls -/

/-- The methods and helpers `Generate` calls that are declared elsewhere.  A
method returns the service state and the pointed-to record as it left them,
and its error (`none` for `nil`). -/
structure Collaborators (σ : Type) where
  CreateUser : Service σ → User → Service σ × User × Option GoError
  SetPassword : Service σ → String → String → Service σ × Option GoError
  CreateOrganization : Service σ → Organization → Service σ × Organization × Option GoError
  CreateBucket : Service σ → Bucket → Service σ × Bucket × Option GoError
  CreateAuthorization : Service σ → Authorization → Service σ × Authorization × Option GoError
  OperPermissions : List Permission
  OrgAdminPermissions : ID → List Permission
  NewPermissionAtID : ID → Action → ResourceType → Except GoError Permission

/-- A call made by `Generate`, with the arguments it was given. -/
inductive Call where
  | CreateUser (u : User)
  | SetPassword (name password : String)
  | CreateOrganization (o : Organization)
  | CreateBucket (b : Bucket)
  | NewPermissionAtID (id : ID) (a : Action) (rt : ResourceType)
  | CreateAuthorization (a : Authorization)
  | PutOnboardingStatus (v : Bool)
  deriving DecidableEq, Repr

/-- A call together with the error it returned. -/
structure Event where
  call : Call
  err : Option GoError
  deriving DecidableEq, Repr

/-- What a call of `Generate` hands back: results with a nil error, an error
with nil results, or the nil-pointer panic of reading a field of a nil request. -/
inductive Outcome where
  | ok (res : OnboardingResults)
  | error (e : GoError)
  | nilDeref
  deriving DecidableEq, Repr

/-- A finished call of `Generate`: the state it leaves, the calls it made in
order, and its outcome. -/
structure Run (σ : Type) where
  state : Service σ
  calls : List Event
  out : Outcome

/-! ## The three methods of `onboarding.go` -/

/-- The method `IsOnboarding`: `isOnboarding = !ok || !result.(bool)`, error nil. -/
def IsOnboarding {σ : Type} (s : Service σ) : Bool × Option GoError :=
  match s.onboardingKV.Load onboardingKey with
  | none => (true, none)
  | some result => (!result, none)

/-- The method `PutOnboardingStatus`: stores `v` under the key, error nil. -/
def PutOnboardingStatus {σ : Type} (s : Service σ) (v : Bool) : Service σ × Option GoError :=
  ({ s with onboardingKV := s.onboardingKV.Store onboardingKey v }, none)

/-- The conversion `time.Duration(x)` of an integer to `int64`, and the
wrap-around of `int64` arithmetic. -/
def wrapInt64 (x : Int) : Int :=
  (x + 2 ^ 63) % 2 ^ 64 - 2 ^ 63

/-- The constant `time.Hour`, in nanoseconds. -/
def Hour : Int := 3600000000000

/-- The expression `time.Duration(req.RetentionPeriod) * time.Hour`. -/
def retentionDuration (hours : Nat) : Int :=
  wrapInt64 (wrapInt64 hours * Hour)

/-- The method `Generate`. -/
def Generate {σ : Type} (c : Collaborators σ) (s : Service σ)
    (req : Option OnboardingRequest) : Run σ :=
  match IsOnboarding s with
  | (_, some err) => ⟨s, [], .error err⟩
  | (isOnboarding, none) =>
  if !isOnboarding then
    ⟨s, [], .error (.platform .EConflict "onboarding has already been completed")⟩
  else
  match req with
  | none => ⟨s, [], .nilDeref⟩
  | some req =>
  if req.Password = "" then
    ⟨s, [], .error (.platform .EEmptyValue "password is empty")⟩
  else if req.User = "" then
    ⟨s, [], .error (.platform .EEmptyValue "username is empty")⟩
  else if req.Org = "" then
    ⟨s, [], .error (.platform .EEmptyValue "org name is empty")⟩
  else if req.Bucket = "" then
    ⟨s, [], .error (.platform .EEmptyValue "bucket name is empty")⟩
  else
  let u0 : User := { Name := req.User }
  match c.CreateUser s u0 with
  | (s1, _, some err) => ⟨s1, [⟨.CreateUser u0, some err⟩], .error err⟩
  | (s1, u, none) =>
  let t1 : List Event := [⟨.CreateUser u0, none⟩]
  match c.SetPassword s1 u.Name req.Password with
  | (s2, some err) => ⟨s2, t1 ++ [⟨.SetPassword u.Name req.Password, some err⟩], .error err⟩
  | (s2, none) =>
  let t2 : List Event := t1 ++ [⟨.SetPassword u.Name req.Password, none⟩]
  let o0 : Organization := { Name := req.Org }
  match c.CreateOrganization s2 o0 with
  | (s3, _, some err) => ⟨s3, t2 ++ [⟨.CreateOrganization o0, some err⟩], .error err⟩
  | (s3, o, none) =>
  let t3 : List Event := t2 ++ [⟨.CreateOrganization o0, none⟩]
  let bucket0 : Bucket :=
    { Name := req.Bucket
      Organization := o.Name
      OrganizationID := o.ID
      RetentionPeriod := retentionDuration req.RetentionPeriod }
  match c.CreateBucket s3 bucket0 with
  | (s4, _, some err) => ⟨s4, t3 ++ [⟨.CreateBucket bucket0, some err⟩], .error err⟩
  | (s4, bucket, none) =>
  let t4 : List Event := t3 ++ [⟨.CreateBucket bucket0, none⟩]
  let perms := c.OperPermissions
  let perms := perms ++ c.OrgAdminPermissions o.ID
  match c.NewPermissionAtID bucket.ID .WriteAction .BucketsResource with
  | .error err =>
    ⟨s4, t4 ++ [⟨.NewPermissionAtID bucket.ID .WriteAction .BucketsResource, some err⟩], .error err⟩
  | .ok writeBucketPerm =>
  let t5 : List Event :=
    t4 ++ [⟨.NewPermissionAtID bucket.ID .WriteAction .BucketsResource, none⟩]
  match c.NewPermissionAtID bucket.ID .ReadAction .BucketsResource with
  | .error err =>
    ⟨s4, t5 ++ [⟨.NewPermissionAtID bucket.ID .ReadAction .BucketsResource, some err⟩], .error err⟩
  | .ok readBucketPerm =>
  let t6 : List Event :=
    t5 ++ [⟨.NewPermissionAtID bucket.ID .ReadAction .BucketsResource, none⟩]
  let perms := perms ++ [writeBucketPerm, readBucketPerm]
  let auth0 : Authorization :=
    { UserID := u.ID
      Description := u.Name ++ "\x27s Token"
      OrgID := o.ID
      Permissions := perms }
  match c.CreateAuthorization s4 auth0 with
  | (s5, _, some err) => ⟨s5, t6 ++ [⟨.CreateAuthorization auth0, some err⟩], .error err⟩
  | (s5, auth, none) =>
  let t7 : List Event := t6 ++ [⟨.CreateAuthorization auth0, none⟩]
  match PutOnboardingStatus s5 true with
  | (s6, some err) => ⟨s6, t7 ++ [⟨.PutOnboardingStatus true, some err⟩], .error err⟩
  | (s6, none) =>
  ⟨s6, t7 ++ [⟨.PutOnboardingStatus true, none⟩],
    .ok { User := u, Org := o, Bucket := bucket, Auth := auth }⟩

/-- Runs `Generate` on each request in turn, every call starting from the
state the one before it left; returns the outcomes in order. -/
def GenerateAll {σ : Type} (c : Collaborators σ) (s : Service σ) :
    List (Option OnboardingRequest) → List Outcome
  | [] => []
  | r :: rs => (Generate c s r).out :: GenerateAll c (Generate c s r).state rs

/-- Whether an outcome is a result with a nil error. -/
def Outcome.isOk : Outcome → Bool
  | .ok _ => true
  | _ => false

/-! ## A concrete in-memory instance of the collaborators -/

/-- Modelled from the spec: the entity stores of the in-memory service, whose
declarations lie outside this unit: an identifier generator and one list per
kind of entity. -/
structure Stores where
  nextID : Nat := 1
  users : List User := []
  passwords : List (String × String) := []
  organizations : List Organization := []
  buckets : List Bucket := []
  authorizations : List Authorization := []
  deriving DecidableEq, Repr

/-- Modelled from the spec: `CreateUser` of the identity provisioner; names are
unique and the identifier is assigned on creation. -/
def memCreateUser (s : Service Stores) (u : User) : Service Stores × User × Option GoError :=
  if s.stores.users.any (fun x => x.Name == u.Name) then
    (s, u, some (.platform .EConflict "user already exists"))
  else
    let u1 : User := { u with ID := s.stores.nextID }
    ({ s with stores := { s.stores with nextID := s.stores.nextID + 1, users := u1 :: s.stores.users } },
      u1, none)

/-- Modelled from the spec: `SetPassword`, attaching a credential to a user
found by name. -/
def memSetPassword (s : Service Stores) (name password : String) :
    Service Stores × Option GoError :=
  if s.stores.users.any (fun x => x.Name == name) then
    ({ s with stores := { s.stores with passwords := (name, password) :: s.stores.passwords } }, none)
  else
    (s, some (.platform (.other "not found") "user not found"))

/-- Modelled from the spec: `CreateOrganization`; names are unique and the
identifier is assigned on creation. -/
def memCreateOrganization (s : Service Stores) (o : Organization) :
    Service Stores × Organization × Option GoError :=
  if s.stores.organizations.any (fun x => x.Name == o.Name) then
    (s, o, some (.platform .EConflict "organization already exists"))
  else
    let o1 : Organization := { o with ID := s.stores.nextID }
    ({ s with stores :=
        { s.stores with nextID := s.stores.nextID + 1, organizations := o1 :: s.stores.organizations } },
      o1, none)

/-- Modelled from the spec: `CreateBucket`; the bucket must reference an
existing organization, and its identifier is assigned on creation. -/
def memCreateBucket (s : Service Stores) (b : Bucket) : Service Stores × Bucket × Option GoError :=
  if s.stores.organizations.any (fun x => x.ID == b.OrganizationID) then
    let b1 : Bucket := { b with ID := s.stores.nextID }
    ({ s with stores := { s.stores with nextID := s.stores.nextID + 1, buckets := b1 :: s.stores.buckets } },
      b1, none)
  else
    (s, b, some (.platform (.other "not found") "organization not found"))

/-- Modelled from the spec: `CreateAuthorization`; the identifier is assigned
on creation. -/
def memCreateAuthorization (s : Service Stores) (a : Authorization) :
    Service Stores × Authorization × Option GoError :=
  if s.stores.users.any (fun x => x.ID == a.UserID) then
    let a1 : Authorization := { a with ID := s.stores.nextID }
    ({ s with stores :=
        { s.stores with nextID := s.stores.nextID + 1, authorizations := a1 :: s.stores.authorizations } },
      a1, none)
  else
    (s, a, some (.platform (.other "not found") "user not found"))

/-- Modelled from the spec: `NewPermissionAtID`, a permission scoped to one
identifier; an identifier of zero is not valid. -/
def memNewPermissionAtID (id : ID) (a : Action) (rt : ResourceType) : Except GoError Permission :=
  if id = 0 then .error (.platform .EInvalid "invalid id")
  else .ok { Action := a, Resource := rt, ID := some id }

/-- Modelled from the spec: the collaborators of an in-memory service, with a
fixed operator set of two permissions and an organization-admin set of two. -/
def memCollaborators : Collaborators Stores where
  CreateUser := memCreateUser
  SetPassword := memSetPassword
  CreateOrganization := memCreateOrganization
  CreateBucket := memCreateBucket
  CreateAuthorization := memCreateAuthorization
  OperPermissions :=
    [⟨.ReadAction, .other "authorizations", none⟩, ⟨.WriteAction, .other "authorizations", none⟩]
  OrgAdminPermissions := fun org =>
    [⟨.ReadAction, .other "orgs", some org⟩, ⟨.WriteAction, .other "orgs", some org⟩]
  NewPermissionAtID := memNewPermissionAtID

/-- A freshly installed service: nothing stored. -/
def freshService : Service Stores := { stores := {} }

/-- The request of the worked scenario. -/
def adminRequest : OnboardingRequest :=
  { User := "admin", Password := "pw123", Org := "acme", Bucket := "default", RetentionPeriod := 0 }

/-- The results of the scenario run, written out. -/
def adminResults : OnboardingResults :=
  { User := { ID := 1, Name := "admin" }
    Org := { ID := 2, Name := "acme" }
    Bucket := { ID := 3, Name := "default", Organization := "acme", OrganizationID := 2 }
    Auth :=
      { ID := 4, UserID := 1, OrgID := 2, Description := "admin\x27s Token"
        Permissions :=
          [⟨.ReadAction, .other "authorizations", none⟩,
           ⟨.WriteAction, .other "authorizations", none⟩,
           ⟨.ReadAction, .other "orgs", some 2⟩,
           ⟨.WriteAction, .other "orgs", some 2⟩,
           ⟨.WriteAction, .BucketsResource, some 3⟩,
           ⟨.ReadAction, .BucketsResource, some 3⟩] } }

/-- The state `Generate` leaves on a fresh service for the scenario request. -/
def onboardedService : Service Stores :=
  (Generate memCollaborators freshService (some adminRequest)).state

/-- The name of the function or method a call went to. -/
def Call.name : Call → String
  | .CreateUser _ => "CreateUser"
  | .SetPassword _ _ => "SetPassword"
  | .CreateOrganization _ => "CreateOrganization"
  | .CreateBucket _ => "CreateBucket"
  | .NewPermissionAtID _ _ _ => "NewPermissionAtID"
  | .CreateAuthorization _ => "CreateAuthorization"
  | .PutOnboardingStatus _ => "PutOnboardingStatus"

/-- The calls of a complete run of `Generate`, in the order of the source text. -/
def stepNames : List String :=
  ["CreateUser", "SetPassword", "CreateOrganization", "CreateBucket", "NewPermissionAtID",
   "NewPermissionAtID", "CreateAuthorization", "PutOnboardingStatus"]

/-- A service on which the organization name of the scenario is already taken. -/
def seededService : Service Stores :=
  { stores := { nextID := 8, organizations := [{ ID := 7, Name := "acme" }] } }

/-- The collaborators leave the onboarding map as they found it: each writes
its own entity store, and the flag is written by `PutOnboardingStatus` alone. -/
def KeepsOnboardingKV {σ : Type} (c : Collaborators σ) : Prop :=
  (∀ t u, (c.CreateUser t u).1.onboardingKV = t.onboardingKV) ∧
  (∀ t n p, (c.SetPassword t n p).1.onboardingKV = t.onboardingKV) ∧
  (∀ t o, (c.CreateOrganization t o).1.onboardingKV = t.onboardingKV) ∧
  (∀ t b, (c.CreateBucket t b).1.onboardingKV = t.onboardingKV) ∧
  (∀ t a, (c.CreateAuthorization t a).1.onboardingKV = t.onboardingKV)

/-- The state a call leaves when it is made in state `s`: the state component
of what the method returns; `NewPermissionAtID` is a function without state. -/
def applyCall {σ : Type} (c : Collaborators σ) (s : Service σ) : Call → Service σ
  | .CreateUser u => (c.CreateUser s u).1
  | .SetPassword name password => (c.SetPassword s name password).1
  | .CreateOrganization o => (c.CreateOrganization s o).1
  | .CreateBucket b => (c.CreateBucket s b).1
  | .NewPermissionAtID _ _ _ => s
  | .CreateAuthorization a => (c.CreateAuthorization s a).1
  | .PutOnboardingStatus v => (PutOnboardingStatus s v).1

/-- The state reached from `s` by making the given calls one after the other,
and nothing else. -/
def replay {σ : Type} (c : Collaborators σ) (s : Service σ) (calls : List Call) : Service σ :=
  calls.foldl (applyCall c) s

/-- A method that returns an error has stored nothing: it leaves the service
state as it found it. -/
def FailsClean {σ : Type} (c : Collaborators σ) : Prop :=
  (∀ t u, (c.CreateUser t u).2.2 ≠ none → (c.CreateUser t u).1 = t) ∧
  (∀ t n p, (c.SetPassword t n p).2 ≠ none → (c.SetPassword t n p).1 = t) ∧
  (∀ t o, (c.CreateOrganization t o).2.2 ≠ none → (c.CreateOrganization t o).1 = t) ∧
  (∀ t b, (c.CreateBucket t b).2.2 ≠ none → (c.CreateBucket t b).1 = t) ∧
  (∀ t a, (c.CreateAuthorization t a).2.2 ≠ none → (c.CreateAuthorization t a).1 = t)

/-! ## Notification endpoints (`notification_endpoint.go`) -/

/-- A Go `map[string][]string`, as an association list with one entry per key. -/
structure QueryMap where
  entries : List (String × List String) := []
  deriving DecidableEq, Repr

/-- The index expression `m[key]` with its `ok`: the value stored under `key`. -/
def QueryMap.get? (m : QueryMap) (key : String) : Option (List String) :=
  m.entries.lookup key

/-- The assignment `m[key] = value`. -/
def QueryMap.set (m : QueryMap) (key : String) (value : List String) : QueryMap :=
  ⟨m.entries.filter (fun p => p.1 != key) ++ [(key, value)]⟩

/-- The `NotificationEndpointFilter` struct; a nil pointer is `none`. -/
structure NotificationEndpointFilter where
  ID : Option Onboarding.ID := none
  OrgID : Option Onboarding.ID := none
  Organization : Option String := none
  deriving DecidableEq, Repr

/-- The method `NotificationEndpointFilter.QueryParams`; `idString` is the
method `ID.String`, declared outside this unit. -/
def NotificationEndpointFilter.QueryParams (idString : Onboarding.ID → String)
    (f : NotificationEndpointFilter) : QueryMap :=
  let qp : QueryMap := {}
  let qp := match f.OrgID with
    | some orgID => qp.set "orgID" [idString orgID]
    | none => qp
  let qp := match f.Organization with
    | some organization => qp.set "org" [organization]
    | none => qp
  qp

/-- The `NotificationEndpointUpdate` struct; `Status` is the type
`platform.Status`, declared outside this unit, and a nil pointer is `none`. -/
structure NotificationEndpointUpdate (Status : Type) where
  Name : Option String := none
  Description : Option String := none
  Status : Option Status := none

/-- The method `NotificationEndpointUpdate.Valid`; `statusValid` is the method
`Status.Valid`, declared outside this unit. -/
def NotificationEndpointUpdate.Valid {Status : Type} (statusValid : Status → Option GoError)
    (n : NotificationEndpointUpdate Status) : Option GoError :=
  if n.Name = some "" then
    some (.platform .EInvalid "Notification Endpoint Name can\x27t be empty")
  else if n.Description = some "" then
    some (.platform .EInvalid "Notification Endpoint Description can\x27t be empty")
  else
    match n.Status with
    | some status =>
      match statusValid status with
      | some err => some err
      | none => none
    | none => none

/-! ## Basic facts about the flag -/

theorem IsOnboarding_eq {σ : Type} (s : Service σ) :
    IsOnboarding s = ((IsOnboarding s).1, none) := by
  unfold IsOnboarding; split <;> rfl

theorem IsOnboarding_congr {σ : Type} (s t : Service σ) (h : t.onboardingKV = s.onboardingKV) :
    IsOnboarding t = IsOnboarding s := by
  unfold IsOnboarding; rw [h]

theorem Load_Store (m : SyncMap) (k : String) (v : Bool) : (m.Store k v).Load k = some v := by
  simp [SyncMap.Load, SyncMap.Store, List.lookup]

theorem IsOnboarding_Put {σ : Type} (s : Service σ) (v : Bool) :
    IsOnboarding (PutOnboardingStatus s v).1 = (!v, none) := by
  simp [IsOnboarding, PutOnboardingStatus, Load_Store]

theorem IsOnboarding_false_iff {σ : Type} (s : Service σ) :
    (IsOnboarding s).1 = false ↔ s.onboardingKV.Load onboardingKey = some true := by
  unfold IsOnboarding
  cases h : s.onboardingKV.Load onboardingKey with
  | none => simp
  | some b => cases b <;> simp

/-! ## The shape of every run of `Generate` -/

theorem Generate_completed {σ : Type} (c : Collaborators σ) (s : Service σ)
    (req : Option OnboardingRequest) (h : (IsOnboarding s).1 = false) :
    Generate c s req =
      ⟨s, [], .error (.platform .EConflict "onboarding has already been completed")⟩ := by
  unfold Generate
  rw [IsOnboarding_eq s, h]
  simp

theorem Generate_cases {σ : Type} (c : Collaborators σ) (s : Service σ) (req : OnboardingRequest)
    (hon : (IsOnboarding s).1 = true) (hp : req.Password ≠ "") (hu : req.User ≠ "")
    (ho : req.Org ≠ "") (hb : req.Bucket ≠ "") :
    ∃ s1 u e1, c.CreateUser s { Name := req.User } = (s1, u, e1) ∧
    ((∃ e, e1 = some e ∧ Generate c s (some req) =
        ⟨s1, [⟨.CreateUser { Name := req.User }, some e⟩], .error e⟩) ∨
     (e1 = none ∧ ∃ s2 e2, c.SetPassword s1 u.Name req.Password = (s2, e2) ∧
    ((∃ e, e2 = some e ∧ Generate c s (some req) =
        ⟨s2, [⟨.CreateUser { Name := req.User }, none⟩,
              ⟨.SetPassword u.Name req.Password, some e⟩], .error e⟩) ∨
     (e2 = none ∧ ∃ s3 o e3, c.CreateOrganization s2 { Name := req.Org } = (s3, o, e3) ∧
    ((∃ e, e3 = some e ∧ Generate c s (some req) =
        ⟨s3, [⟨.CreateUser { Name := req.User }, none⟩,
              ⟨.SetPassword u.Name req.Password, none⟩,
              ⟨.CreateOrganization { Name := req.Org }, some e⟩], .error e⟩) ∨
     (e3 = none ∧ ∃ s4 bucket e4,
        c.CreateBucket s3 { Name := req.Bucket, Organization := o.Name, OrganizationID := o.ID, RetentionPeriod := retentionDuration req.RetentionPeriod } = (s4, bucket, e4) ∧
    ((∃ e, e4 = some e ∧ Generate c s (some req) =
        ⟨s4, [⟨.CreateUser { Name := req.User }, none⟩,
              ⟨.SetPassword u.Name req.Password, none⟩,
              ⟨.CreateOrganization { Name := req.Org }, none⟩,
              ⟨.CreateBucket { Name := req.Bucket, Organization := o.Name, OrganizationID := o.ID, RetentionPeriod := retentionDuration req.RetentionPeriod }, some e⟩], .error e⟩) ∨
     (e4 = none ∧
    ((∃ e, c.NewPermissionAtID bucket.ID .WriteAction .BucketsResource = .error e ∧
        Generate c s (some req) =
        ⟨s4, [⟨.CreateUser { Name := req.User }, none⟩,
              ⟨.SetPassword u.Name req.Password, none⟩,
              ⟨.CreateOrganization { Name := req.Org }, none⟩,
              ⟨.CreateBucket { Name := req.Bucket, Organization := o.Name, OrganizationID := o.ID, RetentionPeriod := retentionDuration req.RetentionPeriod }, none⟩,
              ⟨.NewPermissionAtID bucket.ID .WriteAction .BucketsResource, some e⟩], .error e⟩) ∨
     (∃ w, c.NewPermissionAtID bucket.ID .WriteAction .BucketsResource = .ok w ∧
    ((∃ e, c.NewPermissionAtID bucket.ID .ReadAction .BucketsResource = .error e ∧
        Generate c s (some req) =
        ⟨s4, [⟨.CreateUser { Name := req.User }, none⟩,
              ⟨.SetPassword u.Name req.Password, none⟩,
              ⟨.CreateOrganization { Name := req.Org }, none⟩,
              ⟨.CreateBucket { Name := req.Bucket, Organization := o.Name, OrganizationID := o.ID, RetentionPeriod := retentionDuration req.RetentionPeriod }, none⟩,
              ⟨.NewPermissionAtID bucket.ID .WriteAction .BucketsResource, none⟩,
              ⟨.NewPermissionAtID bucket.ID .ReadAction .BucketsResource, some e⟩], .error e⟩) ∨
     (∃ r, c.NewPermissionAtID bucket.ID .ReadAction .BucketsResource = .ok r ∧
      ∃ s5 auth e5,
        c.CreateAuthorization s4 { UserID := u.ID, Description := u.Name ++ "\x27s Token", OrgID := o.ID, Permissions := c.OperPermissions ++ c.OrgAdminPermissions o.ID ++ [w, r] }
          = (s5, auth, e5) ∧
    ((∃ e, e5 = some e ∧ Generate c s (some req) =
        ⟨s5, [⟨.CreateUser { Name := req.User }, none⟩,
              ⟨.SetPassword u.Name req.Password, none⟩,
              ⟨.CreateOrganization { Name := req.Org }, none⟩,
              ⟨.CreateBucket { Name := req.Bucket, Organization := o.Name, OrganizationID := o.ID, RetentionPeriod := retentionDuration req.RetentionPeriod }, none⟩,
              ⟨.NewPermissionAtID bucket.ID .WriteAction .BucketsResource, none⟩,
              ⟨.NewPermissionAtID bucket.ID .ReadAction .BucketsResource, none⟩,
              ⟨.CreateAuthorization { UserID := u.ID, Description := u.Name ++ "\x27s Token", OrgID := o.ID, Permissions := c.OperPermissions ++ c.OrgAdminPermissions o.ID ++ [w, r] },
                some e⟩], .error e⟩) ∨
     (e5 = none ∧ Generate c s (some req) =
        ⟨(PutOnboardingStatus s5 true).1,
             [⟨.CreateUser { Name := req.User }, none⟩,
              ⟨.SetPassword u.Name req.Password, none⟩,
              ⟨.CreateOrganization { Name := req.Org }, none⟩,
              ⟨.CreateBucket { Name := req.Bucket, Organization := o.Name, OrganizationID := o.ID, RetentionPeriod := retentionDuration req.RetentionPeriod }, none⟩,
              ⟨.NewPermissionAtID bucket.ID .WriteAction .BucketsResource, none⟩,
              ⟨.NewPermissionAtID bucket.ID .ReadAction .BucketsResource, none⟩,
              ⟨.CreateAuthorization { UserID := u.ID, Description := u.Name ++ "\x27s Token", OrgID := o.ID, Permissions := c.OperPermissions ++ c.OrgAdminPermissions o.ID ++ [w, r] },
                none⟩,
              ⟨.PutOnboardingStatus true, none⟩],
          .ok { User := u, Org := o, Bucket := bucket, Auth := auth }⟩)))))))))))))) := by
  unfold Generate
  rw [IsOnboarding_eq s, hon]
  simp only [hp, hu, ho, hb, if_false, Bool.not_true, Bool.false_eq_true]
  rcases h1 : c.CreateUser s { Name := req.User } with ⟨s1, u, e1⟩
  refine ⟨s1, u, e1, rfl, ?_⟩
  cases e1 with
  | some e => exact Or.inl ⟨e, rfl, rfl⟩
  | none =>
  refine Or.inr ⟨rfl, ?_⟩
  simp only []
  rcases h2 : c.SetPassword s1 u.Name req.Password with ⟨s2, e2⟩
  refine ⟨s2, e2, rfl, ?_⟩
  cases e2 with
  | some e => exact Or.inl ⟨e, rfl, rfl⟩
  | none =>
  refine Or.inr ⟨rfl, ?_⟩
  simp only []
  rcases h3 : c.CreateOrganization s2 { Name := req.Org } with ⟨s3, o, e3⟩
  refine ⟨s3, o, e3, rfl, ?_⟩
  cases e3 with
  | some e => exact Or.inl ⟨e, rfl, rfl⟩
  | none =>
  refine Or.inr ⟨rfl, ?_⟩
  simp only []
  rcases h4 : c.CreateBucket s3 { Name := req.Bucket, Organization := o.Name, OrganizationID := o.ID, RetentionPeriod := retentionDuration req.RetentionPeriod }
    with ⟨s4, bucket, e4⟩
  refine ⟨s4, bucket, e4, rfl, ?_⟩
  cases e4 with
  | some e => exact Or.inl ⟨e, rfl, rfl⟩
  | none =>
  refine Or.inr ⟨rfl, ?_⟩
  simp only []
  cases h5 : c.NewPermissionAtID bucket.ID .WriteAction .BucketsResource with
  | error e => exact Or.inl ⟨e, rfl, rfl⟩
  | ok w =>
  refine Or.inr ⟨w, rfl, ?_⟩
  simp only []
  cases h6 : c.NewPermissionAtID bucket.ID .ReadAction .BucketsResource with
  | error e => exact Or.inl ⟨e, rfl, rfl⟩
  | ok r =>
  refine Or.inr ⟨r, rfl, ?_⟩
  simp only []
  rcases h7 : c.CreateAuthorization s4 { UserID := u.ID, Description := u.Name ++ "\x27s Token", OrgID := o.ID, Permissions := c.OperPermissions ++ c.OrgAdminPermissions o.ID ++ [w, r] }
    with ⟨s5, auth, e5⟩
  refine ⟨s5, auth, e5, rfl, ?_⟩
  cases e5 with
  | some e => exact Or.inl ⟨e, rfl, rfl⟩
  | none => exact Or.inr ⟨rfl, rfl⟩

theorem Generate_nil {σ : Type} (c : Collaborators σ) (s : Service σ)
    (hon : (IsOnboarding s).1 = true) :
    Generate c s none = ⟨s, [], .nilDeref⟩ := by
  unfold Generate
  rw [IsOnboarding_eq s, hon]
  simp

theorem Generate_invalid {σ : Type} (c : Collaborators σ) (s : Service σ) (req : OnboardingRequest)
    (hon : (IsOnboarding s).1 = true)
    (h : req.Password = "" ∨ req.User = "" ∨ req.Org = "" ∨ req.Bucket = "") :
    ∃ msg, Generate c s (some req) = ⟨s, [], .error (.platform .EEmptyValue msg)⟩ := by
  unfold Generate
  rw [IsOnboarding_eq s, hon]
  simp only [Bool.not_true, Bool.false_eq_true, if_false]
  by_cases hp : req.Password = ""
  · exact ⟨"password is empty", by simp [hp]⟩
  by_cases hu : req.User = ""
  · exact ⟨"username is empty", by simp [hp, hu]⟩
  by_cases ho : req.Org = ""
  · exact ⟨"org name is empty", by simp [hp, hu, ho]⟩
  by_cases hb : req.Bucket = ""
  · exact ⟨"bucket name is empty", by simp [hp, hu, ho, hb]⟩
  · simp [hp, hu, ho, hb] at h

theorem Generate_ok_inv {σ : Type} (c : Collaborators σ) (s : Service σ)
    (req : Option OnboardingRequest) (res : OnboardingResults)
    (h : (Generate c s req).out = .ok res) :
    ∃ r, req = some r ∧ (IsOnboarding s).1 = true ∧
      r.Password ≠ "" ∧ r.User ≠ "" ∧ r.Org ≠ "" ∧ r.Bucket ≠ "" ∧
    ∃ s1 s2 s3 s4 s5 w rd,
      c.CreateUser s { Name := r.User } = (s1, res.User, none) ∧
      c.SetPassword s1 res.User.Name r.Password = (s2, none) ∧
      c.CreateOrganization s2 { Name := r.Org } = (s3, res.Org, none) ∧
      c.CreateBucket s3 { Name := r.Bucket, Organization := res.Org.Name, OrganizationID := res.Org.ID, RetentionPeriod := retentionDuration r.RetentionPeriod } = (s4, res.Bucket, none) ∧
      c.NewPermissionAtID res.Bucket.ID .WriteAction .BucketsResource = .ok w ∧
      c.NewPermissionAtID res.Bucket.ID .ReadAction .BucketsResource = .ok rd ∧
      c.CreateAuthorization s4 { UserID := res.User.ID, Description := res.User.Name ++ "\x27s Token", OrgID := res.Org.ID, Permissions := c.OperPermissions ++ c.OrgAdminPermissions res.Org.ID ++ [w, rd] } = (s5, res.Auth, none) ∧
      Generate c s req =
        ⟨(PutOnboardingStatus s5 true).1,
         [⟨.CreateUser { Name := r.User }, none⟩,
          ⟨.SetPassword res.User.Name r.Password, none⟩,
          ⟨.CreateOrganization { Name := r.Org }, none⟩,
          ⟨.CreateBucket { Name := r.Bucket, Organization := res.Org.Name, OrganizationID := res.Org.ID, RetentionPeriod := retentionDuration r.RetentionPeriod }, none⟩,
          ⟨.NewPermissionAtID res.Bucket.ID .WriteAction .BucketsResource, none⟩,
          ⟨.NewPermissionAtID res.Bucket.ID .ReadAction .BucketsResource, none⟩,
          ⟨.CreateAuthorization { UserID := res.User.ID, Description := res.User.Name ++ "\x27s Token", OrgID := res.Org.ID, Permissions := c.OperPermissions ++ c.OrgAdminPermissions res.Org.ID ++ [w, rd] }, none⟩,
          ⟨.PutOnboardingStatus true, none⟩],
         .ok res⟩ := by
  cases hon : (IsOnboarding s).1 with
  | false => rw [Generate_completed c s req hon] at h; cases h
  | true =>
  cases req with
  | none => rw [Generate_nil c s hon] at h; cases h
  | some r =>
  by_cases hv : r.Password = "" ∨ r.User = "" ∨ r.Org = "" ∨ r.Bucket = ""
  · obtain ⟨msg, hm⟩ := Generate_invalid c s r hon hv
    rw [hm] at h; cases h
  · simp only [not_or] at hv
    obtain ⟨hp, hu, ho, hb⟩ := hv
    refine ⟨r, rfl, rfl, hp, hu, ho, hb, ?_⟩
    obtain ⟨s1, u, e1, h1, hc⟩ := Generate_cases c s r hon hp hu ho hb
    rcases hc with ⟨e, _, hG⟩ | ⟨rfl, s2, e2, h2, hc⟩
    · rw [hG] at h; cases h
    rcases hc with ⟨e, _, hG⟩ | ⟨rfl, s3, o, e3, h3, hc⟩
    · rw [hG] at h; cases h
    rcases hc with ⟨e, _, hG⟩ | ⟨rfl, s4, bucket, e4, h4, hc⟩
    · rw [hG] at h; cases h
    rcases hc with ⟨e, _, hG⟩ | ⟨rfl, hc⟩
    · rw [hG] at h; cases h
    rcases hc with ⟨e, _, hG⟩ | ⟨w, h5, hc⟩
    · rw [hG] at h; cases h
    rcases hc with ⟨e, _, hG⟩ | ⟨rd, h6, s5, auth, e5, h7, hc⟩
    · rw [hG] at h; cases h
    rcases hc with ⟨e, _, hG⟩ | ⟨rfl, hG⟩
    · rw [hG] at h; cases h
    rw [hG] at h
    simp only [Outcome.ok.injEq] at h
    subst h
    exact ⟨s1, s2, s3, s4, s5, w, rd, h1, h2, h3, h4, h5, h6, h7, hG⟩

theorem Generate_ok_flag {σ : Type} (c : Collaborators σ) (s : Service σ)
    (req : Option OnboardingRequest) (res : OnboardingResults)
    (h : (Generate c s req).out = .ok res) :
    IsOnboarding (Generate c s req).state = (false, none) := by
  obtain ⟨r, _, _, _, _, _, _, s1, s2, s3, s4, s5, w, rd, _, _, _, _, _, _, _, hG⟩ :=
    Generate_ok_inv c s req res h
  rw [hG]
  exact IsOnboarding_Put s5 true

theorem GenerateAll_completed {σ : Type} (c : Collaborators σ) (s : Service σ)
    (hf : (IsOnboarding s).1 = false) (rs : List (Option OnboardingRequest)) :
    ∀ o ∈ GenerateAll c s rs,
      o = .error (.platform .EConflict "onboarding has already been completed") := by
  induction rs with
  | nil => intro o ho; simp [GenerateAll] at ho
  | cons r rs ih =>
    intro o ho
    simp only [GenerateAll, Generate_completed c s r hf, List.mem_cons] at ho
    rcases ho with rfl | ho
    · rfl
    · exact ih o ho

theorem GenerateAll_count_le_one {σ : Type} (c : Collaborators σ)
    (rs : List (Option OnboardingRequest)) :
    ∀ s : Service σ, (GenerateAll c s rs).countP Outcome.isOk ≤ 1 := by
  induction rs with
  | nil => intro s; simp [GenerateAll]
  | cons r rs ih =>
    intro s
    simp only [GenerateAll, List.countP_cons]
    cases hout : (Generate c s r).out with
    | ok res =>
      have hf : (IsOnboarding (Generate c s r).state).1 = false := by
        rw [Generate_ok_flag c s r res hout]
      have hz : (GenerateAll c (Generate c s r).state rs).countP Outcome.isOk = 0 := by
        rw [List.countP_eq_zero]
        intro o ho
        rw [GenerateAll_completed c _ hf rs o ho]
        simp [Outcome.isOk]
      simp [hz, Outcome.isOk]
    | error e =>
      have := ih (Generate c s r).state
      simpa [Outcome.isOk] using this
    | nilDeref =>
      have := ih (Generate c s r).state
      simpa [Outcome.isOk] using this

theorem Generate_calls_nil_of_not_valid {σ : Type} (c : Collaborators σ) (s : Service σ)
    (req : OnboardingRequest)
    (h : ¬ ((IsOnboarding s).1 = true ∧ req.Password ≠ "" ∧ req.User ≠ "" ∧ req.Org ≠ "" ∧
      req.Bucket ≠ "")) :
    (Generate c s (some req)).calls = [] ∧ (Generate c s (some req)).state = s ∧
    ∃ e, (Generate c s (some req)).out = .error e := by
  cases hon : (IsOnboarding s).1 with
  | false => rw [Generate_completed c s _ hon]; exact ⟨rfl, rfl, _, rfl⟩
  | true =>
    have hv : req.Password = "" ∨ req.User = "" ∨ req.Org = "" ∨ req.Bucket = "" := by
      by_contra hn
      simp only [not_or] at hn
      exact h ⟨hon, hn.1, hn.2.1, hn.2.2.1, hn.2.2.2⟩
    obtain ⟨msg, hm⟩ := Generate_invalid c s req hon hv
    rw [hm]; exact ⟨rfl, rfl, _, rfl⟩

theorem Generate_CreateBucket_mem {σ : Type} (c : Collaborators σ) (s : Service σ)
    (req : OnboardingRequest) (b : Bucket) (e : Option GoError)
    (hm : (⟨.CreateBucket b, e⟩ : Event) ∈ (Generate c s (some req)).calls) :
    ∃ o : Organization, b = { Name := req.Bucket, Organization := o.Name, OrganizationID := o.ID, RetentionPeriod := retentionDuration req.RetentionPeriod } := by
  by_cases hv : (IsOnboarding s).1 = true ∧ req.Password ≠ "" ∧ req.User ≠ "" ∧ req.Org ≠ "" ∧
      req.Bucket ≠ ""
  · obtain ⟨hon, hp, hu, ho, hb⟩ := hv
    obtain ⟨s1, u, e1, h1, hc⟩ := Generate_cases c s req hon hp hu ho hb
    rcases hc with ⟨e, _, hG⟩ | ⟨rfl, s2, e2, h2, hc⟩
    · rw [hG] at hm; simp at hm
    rcases hc with ⟨e, _, hG⟩ | ⟨rfl, s3, o, e3, h3, hc⟩
    · rw [hG] at hm; simp at hm
    rcases hc with ⟨e, _, hG⟩ | ⟨rfl, s4, bucket, e4, h4, hc⟩
    · rw [hG] at hm; simp at hm
    refine ⟨o, ?_⟩
    rcases hc with ⟨e, _, hG⟩ | ⟨rfl, hc⟩
    · rw [hG] at hm; simp at hm; exact hm.1
    rcases hc with ⟨e, _, hG⟩ | ⟨w, h5, hc⟩
    · rw [hG] at hm; simp at hm; exact hm.1
    rcases hc with ⟨e, _, hG⟩ | ⟨rd, h6, s5, auth, e5, h7, hc⟩
    · rw [hG] at hm; simp at hm; exact hm.1
    rcases hc with ⟨e, _, hG⟩ | ⟨rfl, hG⟩
    · rw [hG] at hm; simp at hm; exact hm.1
    · rw [hG] at hm; simp at hm; exact hm.1
  · rw [(Generate_calls_nil_of_not_valid c s req hv).1] at hm
    simp at hm

theorem wrapInt64_of_range (x : Int) (h0 : -9223372036854775808 ≤ x)
    (h1 : x < 9223372036854775808) : wrapInt64 x = x := by
  unfold wrapInt64
  norm_num
  rw [Int.emod_eq_of_lt (by omega) (by omega)]
  omega

theorem retentionDuration_small (h : Nat) (hle : h ≤ 2562047) :
    retentionDuration h = (h : Int) * 3600000000000 ∧ 0 ≤ retentionDuration h := by
  unfold retentionDuration Hour
  rw [wrapInt64_of_range (h : Int) (by omega) (by omega)]
  rw [wrapInt64_of_range ((h : Int) * 3600000000000) (by omega) (by omega)]
  exact ⟨rfl, by omega⟩

theorem Generate_none_run {σ : Type} (c : Collaborators σ) (s : Service σ) :
    (Generate c s none).calls = [] ∧ (Generate c s none).state = s := by
  cases hon : (IsOnboarding s).1 with
  | false => rw [Generate_completed c s _ hon]; exact ⟨rfl, rfl⟩
  | true => rw [Generate_nil c s hon]; exact ⟨rfl, rfl⟩

theorem Generate_valid_head {σ : Type} (c : Collaborators σ) (s : Service σ)
    (req : OnboardingRequest) (hon : (IsOnboarding s).1 = true) (hp : req.Password ≠ "")
    (hu : req.User ≠ "") (ho : req.Org ≠ "") (hb : req.Bucket ≠ "") :
    (Generate c s (some req)).calls.head? =
      some ⟨.CreateUser { Name := req.User }, (c.CreateUser s { Name := req.User }).2.2⟩ := by
  obtain ⟨s1, u, e1, h1, hc⟩ := Generate_cases c s req hon hp hu ho hb
  rw [h1]
  rcases hc with ⟨e, rfl, hG⟩ | ⟨rfl, s2, e2, h2, hc⟩
  · rw [hG]; rfl
  rcases hc with ⟨e, rfl, hG⟩ | ⟨rfl, s3, o, e3, h3, hc⟩
  · rw [hG]; rfl
  rcases hc with ⟨e, rfl, hG⟩ | ⟨rfl, s4, bucket, e4, h4, hc⟩
  · rw [hG]; rfl
  rcases hc with ⟨e, rfl, hG⟩ | ⟨rfl, hc⟩
  · rw [hG]; rfl
  rcases hc with ⟨e, _, hG⟩ | ⟨w, h5, hc⟩
  · rw [hG]; rfl
  rcases hc with ⟨e, _, hG⟩ | ⟨rd, h6, s5, auth, e5, h7, hc⟩
  · rw [hG]; rfl
  rcases hc with ⟨e, rfl, hG⟩ | ⟨rfl, hG⟩
  · rw [hG]; rfl
  · rw [hG]; rfl

theorem Generate_error_kv {σ : Type} (c : Collaborators σ) (s : Service σ)
    (req : Option OnboardingRequest) (e : GoError) (hK : KeepsOnboardingKV c)
    (h : (Generate c s req).out = .error e) :
    (Generate c s req).state.onboardingKV = s.onboardingKV := by
  obtain ⟨hK1, hK2, hK3, hK4, hK5⟩ := hK
  cases req with
  | none => rw [(Generate_none_run c s).2]
  | some req =>
  by_cases hv : (IsOnboarding s).1 = true ∧ req.Password ≠ "" ∧ req.User ≠ "" ∧ req.Org ≠ "" ∧
      req.Bucket ≠ ""
  · obtain ⟨hon, hp, hu, ho, hb⟩ := hv
    obtain ⟨s1, u, e1, h1, hc⟩ := Generate_cases c s req hon hp hu ho hb
    have k1 : s1.onboardingKV = s.onboardingKV := by
      simpa [h1] using hK1 s { Name := req.User }
    rcases hc with ⟨e0, rfl, hG⟩ | ⟨rfl, s2, e2, h2, hc⟩
    · rw [hG]; exact k1
    have k2 : s2.onboardingKV = s.onboardingKV := by
      rw [← k1]; simpa [h2] using hK2 s1 u.Name req.Password
    rcases hc with ⟨e0, rfl, hG⟩ | ⟨rfl, s3, o, e3, h3, hc⟩
    · rw [hG]; exact k2
    have k3 : s3.onboardingKV = s.onboardingKV := by
      rw [← k2]; simpa [h3] using hK3 s2 { Name := req.Org }
    rcases hc with ⟨e0, rfl, hG⟩ | ⟨rfl, s4, bucket, e4, h4, hc⟩
    · rw [hG]; exact k3
    have k4 : s4.onboardingKV = s.onboardingKV := by
      rw [← k3]
      simpa [h4] using hK4 s3 { Name := req.Bucket, Organization := o.Name, OrganizationID := o.ID, RetentionPeriod := retentionDuration req.RetentionPeriod }
    rcases hc with ⟨e0, rfl, hG⟩ | ⟨rfl, hc⟩
    · rw [hG]; exact k4
    rcases hc with ⟨e0, _, hG⟩ | ⟨w, h5, hc⟩
    · rw [hG]; exact k4
    rcases hc with ⟨e0, _, hG⟩ | ⟨rd, h6, s5, auth, e5, h7, hc⟩
    · rw [hG]; exact k4
    have k5 : s5.onboardingKV = s.onboardingKV := by
      rw [← k4]
      have hh := hK5 s4 { UserID := u.ID, Description := u.Name ++ "\x27s Token", OrgID := o.ID, Permissions := c.OperPermissions ++ c.OrgAdminPermissions o.ID ++ [w, rd] }
      rw [h7] at hh
      exact hh
    rcases hc with ⟨e0, rfl, hG⟩ | ⟨rfl, hG⟩
    · rw [hG]; exact k5
    · rw [hG] at h; cases h
  · rw [(Generate_calls_nil_of_not_valid c s req hv).2.1]

theorem memCollaborators_keeps : KeepsOnboardingKV memCollaborators := by
  refine ⟨?_, ?_, ?_, ?_, ?_⟩
  · intro t u; simp only [memCollaborators, memCreateUser]; split <;> rfl
  · intro t n p; simp only [memCollaborators, memSetPassword]; split <;> rfl
  · intro t o; simp only [memCollaborators, memCreateOrganization]; split <;> rfl
  · intro t b; simp only [memCollaborators, memCreateBucket]; split <;> rfl
  · intro t a; simp only [memCollaborators, memCreateAuthorization]; split <;> rfl

theorem memCollaborators_failsClean : FailsClean memCollaborators := by
  refine ⟨?_, ?_, ?_, ?_, ?_⟩
  · intro t u; simp only [memCollaborators, memCreateUser]; split <;> simp
  · intro t n p; simp only [memCollaborators, memSetPassword]; split <;> simp
  · intro t o; simp only [memCollaborators, memCreateOrganization]; split <;> simp
  · intro t b; simp only [memCollaborators, memCreateBucket]; split <;> simp
  · intro t a; simp only [memCollaborators, memCreateAuthorization]; split <;> simp

theorem IsOnboarding_true_iff {σ : Type} (s : Service σ) :
    (IsOnboarding s).1 = true ↔
      s.onboardingKV.Load onboardingKey = none ∨ s.onboardingKV.Load onboardingKey = some false := by
  unfold IsOnboarding
  cases h : s.onboardingKV.Load onboardingKey with
  | none => simp
  | some b => cases b <;> simp

theorem Load_Store_ne (m : SyncMap) (k key : String) (v : Bool) (hk : k ≠ key) :
    (m.Store key v).Load k = m.Load k := by
  have hne : (k == key) = false := by simpa using hk
  simp only [SyncMap.Load, SyncMap.Store, List.lookup, hne]
  induction m.entries with
  | nil => rfl
  | cons p l ih =>
    obtain ⟨a, b⟩ := p
    by_cases ha : a = key
    · subst ha
      simp [List.filter, List.lookup, hne, ih]
    · have hf : (a != key) = true := by simpa using ha
      simp only [List.filter, hf, List.lookup]
      cases hka : (k == a) with
      | true => rfl
      | false => exact ih

theorem Generate_calls_error_last {σ : Type} (c : Collaborators σ) (s : Service σ)
    (req : OnboardingRequest) (ev : Event) (e : GoError)
    (hm : ev ∈ (Generate c s (some req)).calls) (he : ev.err = some e) :
    (Generate c s (some req)).out = .error e ∧
    (Generate c s (some req)).calls.getLast? = some ev ∧
    (Generate c s (some req)).calls.map (fun x => x.call.name) <+: stepNames := by
  by_cases hv : (IsOnboarding s).1 = true ∧ req.Password ≠ "" ∧ req.User ≠ "" ∧ req.Org ≠ "" ∧
      req.Bucket ≠ ""
  · obtain ⟨hon, hp, hu, ho, hb⟩ := hv
    obtain ⟨s1, u, e1, h1, hc⟩ := Generate_cases c s req hon hp hu ho hb
    rcases hc with ⟨e0, rfl, hG⟩ | ⟨rfl, s2, e2, h2, hc⟩
    · rw [hG] at hm ⊢
      simp only [List.mem_cons, List.mem_singleton, List.not_mem_nil, or_false] at hm
      subst hm
      simp only [Option.some.injEq] at he
      subst he; exact ⟨rfl, rfl, ⟨_, rfl⟩⟩
    rcases hc with ⟨e0, rfl, hG⟩ | ⟨rfl, s3, o, e3, h3, hc⟩
    · rw [hG] at hm ⊢
      simp only [List.mem_cons, List.mem_singleton, List.not_mem_nil, or_false] at hm
      rcases hm with rfl | rfl
      all_goals simp only [Option.some.injEq, reduceCtorEq] at he
      subst he; exact ⟨rfl, rfl, ⟨_, rfl⟩⟩
    rcases hc with ⟨e0, rfl, hG⟩ | ⟨rfl, s4, bucket, e4, h4, hc⟩
    · rw [hG] at hm ⊢
      simp only [List.mem_cons, List.mem_singleton, List.not_mem_nil, or_false] at hm
      rcases hm with rfl | rfl | rfl
      all_goals simp only [Option.some.injEq, reduceCtorEq] at he
      subst he; exact ⟨rfl, rfl, ⟨_, rfl⟩⟩
    rcases hc with ⟨e0, rfl, hG⟩ | ⟨rfl, hc⟩
    · rw [hG] at hm ⊢
      simp only [List.mem_cons, List.mem_singleton, List.not_mem_nil, or_false] at hm
      rcases hm with rfl | rfl | rfl | rfl
      all_goals simp only [Option.some.injEq, reduceCtorEq] at he
      subst he; exact ⟨rfl, rfl, ⟨_, rfl⟩⟩
    rcases hc with ⟨e0, _, hG⟩ | ⟨w, h5, hc⟩
    · rw [hG] at hm ⊢
      simp only [List.mem_cons, List.mem_singleton, List.not_mem_nil, or_false] at hm
      rcases hm with rfl | rfl | rfl | rfl | rfl
      all_goals simp only [Option.some.injEq, reduceCtorEq] at he
      subst he; exact ⟨rfl, rfl, ⟨_, rfl⟩⟩
    rcases hc with ⟨e0, _, hG⟩ | ⟨rd, h6, s5, auth, e5, h7, hc⟩
    · rw [hG] at hm ⊢
      simp only [List.mem_cons, List.mem_singleton, List.not_mem_nil, or_false] at hm
      rcases hm with rfl | rfl | rfl | rfl | rfl | rfl
      all_goals simp only [Option.some.injEq, reduceCtorEq] at he
      subst he; exact ⟨rfl, rfl, ⟨_, rfl⟩⟩
    rcases hc with ⟨e0, rfl, hG⟩ | ⟨rfl, hG⟩
    · rw [hG] at hm ⊢
      simp only [List.mem_cons, List.mem_singleton, List.not_mem_nil, or_false] at hm
      rcases hm with rfl | rfl | rfl | rfl | rfl | rfl | rfl
      all_goals simp only [Option.some.injEq, reduceCtorEq] at he
      subst he; exact ⟨rfl, rfl, ⟨_, rfl⟩⟩
    · rw [hG] at hm
      simp only [List.mem_cons, List.mem_singleton, List.not_mem_nil, or_false] at hm
      rcases hm with rfl | rfl | rfl | rfl | rfl | rfl | rfl | rfl
      all_goals simp only [Option.some.injEq, reduceCtorEq] at he
  · rw [(Generate_calls_nil_of_not_valid c s req hv).1] at hm
    simp at hm

theorem Generate_calls_shape {σ : Type} (c : Collaborators σ) (s : Service σ)
    (req : OnboardingRequest) :
    (Generate c s (some req)).calls.map (fun x => x.call.name) <+: stepNames := by
  by_cases hv : (IsOnboarding s).1 = true ∧ req.Password ≠ "" ∧ req.User ≠ "" ∧ req.Org ≠ "" ∧
      req.Bucket ≠ ""
  · obtain ⟨hon, hp, hu, ho, hb⟩ := hv
    obtain ⟨s1, u, e1, h1, hc⟩ := Generate_cases c s req hon hp hu ho hb
    rcases hc with ⟨e0, rfl, hG⟩ | ⟨rfl, s2, e2, h2, hc⟩
    · rw [hG]; exact ⟨_, rfl⟩
    rcases hc with ⟨e0, rfl, hG⟩ | ⟨rfl, s3, o, e3, h3, hc⟩
    · rw [hG]; exact ⟨_, rfl⟩
    rcases hc with ⟨e0, rfl, hG⟩ | ⟨rfl, s4, bucket, e4, h4, hc⟩
    · rw [hG]; exact ⟨_, rfl⟩
    rcases hc with ⟨e0, rfl, hG⟩ | ⟨rfl, hc⟩
    · rw [hG]; exact ⟨_, rfl⟩
    rcases hc with ⟨e0, _, hG⟩ | ⟨w, h5, hc⟩
    · rw [hG]; exact ⟨_, rfl⟩
    rcases hc with ⟨e0, _, hG⟩ | ⟨rd, h6, s5, auth, e5, h7, hc⟩
    · rw [hG]; exact ⟨_, rfl⟩
    rcases hc with ⟨e0, rfl, hG⟩ | ⟨rfl, hG⟩
    · rw [hG]; exact ⟨_, rfl⟩
    · rw [hG]; exact ⟨_, rfl⟩
  · rw [(Generate_calls_nil_of_not_valid c s req hv).1]
    exact ⟨_, rfl⟩

/-! ## The claims -/

/-- C1: in every state whose onboarding flag is stored as true, `IsOnboarding`
returns false and `Generate`, for every request (a nil one and one with empty
fields included), returns the `EConflict` error "onboarding has already been
completed", calls no collaborator and leaves the state as it was. -/
theorem Generate_conflict_when_completed {σ : Type} (c : Collaborators σ) (s : Service σ)
    (req : Option OnboardingRequest)
    (h : s.onboardingKV.Load onboardingKey = some true) :
    IsOnboarding s = (false, none) ∧
    (Generate c s req).out =
      .error (.platform .EConflict "onboarding has already been completed") ∧
    (Generate c s req).calls = [] ∧
    (Generate c s req).state = s := by
  have hf : (IsOnboarding s).1 = false := (IsOnboarding_false_iff s).2 h
  refine ⟨?_, ?_⟩
  · rw [IsOnboarding_eq s, hf]
  · rw [Generate_completed c s req hf]
    exact ⟨rfl, rfl, rfl⟩

/-- Witness of C1: the onboarded service, asked again with an all-empty request. -/
theorem Generate_conflict_when_completed_witness :
    onboardedService.onboardingKV.Load onboardingKey = some true ∧
    (Generate memCollaborators onboardedService (some {})).out =
      .error (.platform .EConflict "onboarding has already been completed") ∧
    (Generate memCollaborators onboardedService (some {})).calls = [] :=
  ⟨by decide,
   (Generate_conflict_when_completed memCollaborators onboardedService (some {}) (by decide)).2.1,
   (Generate_conflict_when_completed memCollaborators onboardedService (some {}) (by decide)).2.2.1⟩

/-- C2: while `IsOnboarding` returns true, a request with an empty field fails
with the `EEmptyValue` error that names the first empty field in the order
password, username, organization, bucket. -/
theorem Generate_empty_value {σ : Type} (c : Collaborators σ) (s : Service σ)
    (req : OnboardingRequest) (hon : (IsOnboarding s).1 = true) :
    (req.Password = "" →
      (Generate c s (some req)).out = .error (.platform .EEmptyValue "password is empty")) ∧
    (req.Password ≠ "" → req.User = "" →
      (Generate c s (some req)).out = .error (.platform .EEmptyValue "username is empty")) ∧
    (req.Password ≠ "" → req.User ≠ "" → req.Org = "" →
      (Generate c s (some req)).out = .error (.platform .EEmptyValue "org name is empty")) ∧
    (req.Password ≠ "" → req.User ≠ "" → req.Org ≠ "" → req.Bucket = "" →
      (Generate c s (some req)).out = .error (.platform .EEmptyValue "bucket name is empty")) := by
  unfold Generate
  rw [IsOnboarding_eq s, hon]
  simp only [Bool.not_true, Bool.false_eq_true, if_false]
  refine ⟨?_, ?_, ?_, ?_⟩
  · intro hp; simp [hp]
  · intro hp hu; simp [hp, hu]
  · intro hp hu ho; simp [hp, hu, ho]
  · intro hp hu ho hb; simp [hp, hu, ho, hb]

/-- Witness of C2: on a fresh service, one request for each of the four
messages; the first two have several empty fields. -/
theorem Generate_empty_value_witness :
    (IsOnboarding freshService).1 = true ∧
    (Generate memCollaborators freshService (some {})).out =
      .error (.platform .EEmptyValue "password is empty") ∧
    (Generate memCollaborators freshService (some { Password := "pw123", Org := "acme" })).out =
      .error (.platform .EEmptyValue "username is empty") ∧
    (Generate memCollaborators freshService
        (some { Password := "pw123", User := "admin", Bucket := "default" })).out =
      .error (.platform .EEmptyValue "org name is empty") ∧
    (Generate memCollaborators freshService
        (some { Password := "pw123", User := "admin", Org := "acme" })).out =
      .error (.platform .EEmptyValue "bucket name is empty") :=
  ⟨by decide,
   (Generate_empty_value memCollaborators freshService {} (by decide)).1 (by decide),
   (Generate_empty_value memCollaborators freshService { Password := "pw123", Org := "acme" }
      (by decide)).2.1 (by decide) (by decide),
   (Generate_empty_value memCollaborators freshService
      { Password := "pw123", User := "admin", Bucket := "default" }
      (by decide)).2.2.1 (by decide) (by decide) (by decide),
   (Generate_empty_value memCollaborators freshService
      { Password := "pw123", User := "admin", Org := "acme" }
      (by decide)).2.2.2 (by decide) (by decide) (by decide) (by decide)⟩

/-- C3: a request with an empty field creates nothing, in every state: no
collaborator is called, the state after the call is the state before it, and
`IsOnboarding` answers as before, with true when no flag was ever stored. -/
theorem Generate_empty_creates_nothing {σ : Type} (c : Collaborators σ) (s : Service σ)
    (req : OnboardingRequest)
    (h : req.Password = "" ∨ req.User = "" ∨ req.Org = "" ∨ req.Bucket = "") :
    (Generate c s (some req)).calls = [] ∧
    (Generate c s (some req)).state = s ∧
    IsOnboarding (Generate c s (some req)).state = IsOnboarding s ∧
    (s.onboardingKV.Load onboardingKey = none →
      IsOnboarding (Generate c s (some req)).state = (true, none)) := by
  have hst : (Generate c s (some req)).calls = [] ∧ (Generate c s (some req)).state = s := by
    cases hon : (IsOnboarding s).1 with
    | false => rw [Generate_completed c s _ hon]; exact ⟨rfl, rfl⟩
    | true =>
      obtain ⟨msg, hm⟩ := Generate_invalid c s req hon h
      rw [hm]; exact ⟨rfl, rfl⟩
  refine ⟨hst.1, hst.2, by rw [hst.2], ?_⟩
  intro hl
  rw [hst.2]
  simp [IsOnboarding, hl]

/-- Witness of C3: the scenario request with its password blanked, on a fresh service. -/
theorem Generate_empty_creates_nothing_witness :
    (Generate memCollaborators freshService (some { adminRequest with Password := "" })).calls = [] ∧
    (Generate memCollaborators freshService (some { adminRequest with Password := "" })).state
      = freshService ∧
    IsOnboarding (Generate memCollaborators freshService
      (some { adminRequest with Password := "" })).state = (true, none) :=
  ⟨(Generate_empty_creates_nothing memCollaborators freshService
      { adminRequest with Password := "" } (Or.inl rfl)).1,
   (Generate_empty_creates_nothing memCollaborators freshService
      { adminRequest with Password := "" } (Or.inl rfl)).2.1,
   (Generate_empty_creates_nothing memCollaborators freshService
      { adminRequest with Password := "" } (Or.inl rfl)).2.2.2 (by decide)⟩

/-- C4: when `Generate` returns results with a nil error, `IsOnboarding` on the
state it leaves returns false, with a nil error. -/
theorem Generate_ok_clears_onboarding {σ : Type} (c : Collaborators σ) (s : Service σ)
    (req : Option OnboardingRequest) (res : OnboardingResults)
    (h : (Generate c s req).out = .ok res) :
    IsOnboarding (Generate c s req).state = (false, none) :=
  Generate_ok_flag c s req res h

/-- Witness of C4: the scenario request on a fresh service succeeds and clears the flag. -/
theorem Generate_ok_clears_onboarding_witness :
    (∃ res, (Generate memCollaborators freshService (some adminRequest)).out = .ok res) ∧
    IsOnboarding (Generate memCollaborators freshService (some adminRequest)).state
      = (false, none) :=
  ⟨⟨_, rfl⟩, Generate_ok_clears_onboarding memCollaborators freshService (some adminRequest) _ rfl⟩

/-- C5: after a successful `Generate` a second call on the state it left, for
any request, fails with the `EConflict` error, calls no collaborator and
changes nothing; so does every later call, and in any sequence of calls from
any state at most one succeeds. -/
theorem Generate_second_run_disabled {σ : Type} (c : Collaborators σ) (s : Service σ)
    (r1 r2 : Option OnboardingRequest) (res : OnboardingResults)
    (h : (Generate c s r1).out = .ok res) :
    (Generate c (Generate c s r1).state r2).out =
      .error (.platform .EConflict "onboarding has already been completed") ∧
    (Generate c (Generate c s r1).state r2).calls = [] ∧
    (Generate c (Generate c s r1).state r2).state = (Generate c s r1).state ∧
    (∀ rs, ∀ o ∈ GenerateAll c (Generate c s r1).state rs,
      o = .error (.platform .EConflict "onboarding has already been completed")) ∧
    (∀ (s0 : Service σ) rs, (GenerateAll c s0 rs).countP Outcome.isOk ≤ 1) := by
  have hf : (IsOnboarding (Generate c s r1).state).1 = false := by
    rw [Generate_ok_flag c s r1 res h]
  refine ⟨?_, ?_, ?_, ?_, ?_⟩
  · rw [Generate_completed c _ r2 hf]
  · rw [Generate_completed c _ r2 hf]
  · rw [Generate_completed c _ r2 hf]
  · intro rs
    exact GenerateAll_completed c _ hf rs
  · intro s0 rs
    exact GenerateAll_count_le_one c rs s0

/-- Witness of C5: the scenario request, sent twice to a fresh service. -/
theorem Generate_second_run_disabled_witness :
    (∃ res, (Generate memCollaborators freshService (some adminRequest)).out = .ok res) ∧
    (Generate memCollaborators
        (Generate memCollaborators freshService (some adminRequest)).state
        (some adminRequest)).out =
      .error (.platform .EConflict "onboarding has already been completed") ∧
    GenerateAll memCollaborators freshService [some adminRequest, some adminRequest] =
      [(Generate memCollaborators freshService (some adminRequest)).out,
       .error (.platform .EConflict "onboarding has already been completed")] :=
  ⟨⟨_, rfl⟩,
   (Generate_second_run_disabled memCollaborators freshService (some adminRequest)
      (some adminRequest) _ rfl).1,
   by decide⟩

/-- C6: on success the authorization handed to `CreateAuthorization` carries
exactly `OperPermissions() ++ OrgAdminPermissions(o.ID) ++ [write, read]`,
where `write` and `read` are what `NewPermissionAtID` returned for the new
bucket; when `CreateAuthorization` leaves the permission list of its record
alone, the returned authorization carries the same list, of length
`len(OperPermissions()) + len(OrgAdminPermissions(o.ID)) + 2`. -/
theorem Generate_permissions {σ : Type} (c : Collaborators σ) (s : Service σ)
    (req : Option OnboardingRequest) (res : OnboardingResults)
    (h : (Generate c s req).out = .ok res) :
    ∃ w r,
      c.NewPermissionAtID res.Bucket.ID .WriteAction .BucketsResource = .ok w ∧
      c.NewPermissionAtID res.Bucket.ID .ReadAction .BucketsResource = .ok r ∧
      (∃ a0, (⟨.CreateAuthorization a0, none⟩ : Event) ∈ (Generate c s req).calls ∧
        a0.Permissions = c.OperPermissions ++ c.OrgAdminPermissions res.Org.ID ++ [w, r]) ∧
      ((∀ t a, (c.CreateAuthorization t a).2.1.Permissions = a.Permissions) →
        res.Auth.Permissions =
          c.OperPermissions ++ c.OrgAdminPermissions res.Org.ID ++ [w, r] ∧
        res.Auth.Permissions.length =
          c.OperPermissions.length + (c.OrgAdminPermissions res.Org.ID).length + 2) := by
  obtain ⟨q, _, _, _, _, _, _, s1, s2, s3, s4, s5, w, rd, _, _, _, _, h5, h6, h7, hG⟩ :=
    Generate_ok_inv c s req res h
  refine ⟨w, rd, h5, h6, ⟨{ UserID := res.User.ID, Description := res.User.Name ++ "\x27s Token", OrgID := res.Org.ID, Permissions := c.OperPermissions ++ c.OrgAdminPermissions res.Org.ID ++ [w, rd] }, ?_, rfl⟩, ?_⟩
  · rw [hG]; simp
  · intro hA
    have hp := hA s4 { UserID := res.User.ID, Description := res.User.Name ++ "\x27s Token", OrgID := res.Org.ID, Permissions := c.OperPermissions ++ c.OrgAdminPermissions res.Org.ID ++ [w, rd] }
    rw [h7] at hp
    simp only at hp
    refine ⟨hp, ?_⟩
    rw [hp]
    simp [Nat.add_assoc]

/-- Witness of C6: the scenario run; two operator permissions, two
organization-admin permissions, then write and read on bucket 3. -/
theorem Generate_permissions_witness :
    (Generate memCollaborators freshService (some adminRequest)).out = .ok adminResults ∧
    (∀ t a, (memCollaborators.CreateAuthorization t a).2.1.Permissions = a.Permissions) ∧
    ∃ w r,
      memCollaborators.NewPermissionAtID adminResults.Bucket.ID .WriteAction .BucketsResource
        = .ok w ∧
      memCollaborators.NewPermissionAtID adminResults.Bucket.ID .ReadAction .BucketsResource
        = .ok r ∧
      adminResults.Auth.Permissions =
        memCollaborators.OperPermissions ++
          memCollaborators.OrgAdminPermissions adminResults.Org.ID ++ [w, r] ∧
      adminResults.Auth.Permissions.length =
        memCollaborators.OperPermissions.length +
          (memCollaborators.OrgAdminPermissions adminResults.Org.ID).length + 2 :=
  have hA : ∀ t a, (memCollaborators.CreateAuthorization t a).2.1.Permissions = a.Permissions :=
    fun t a => by simp only [memCollaborators, memCreateAuthorization]; split <;> rfl
  ⟨by decide, hA,
   (Generate_permissions memCollaborators freshService (some adminRequest) adminResults
      (by decide)).imp fun _ hw => hw.imp fun _ hr => ⟨hr.1, hr.2.1, hr.2.2.2 hA⟩⟩

/-- C7: on success the results hold the four records as the create calls of
this run left them; when `CreateUser`, `CreateOrganization` and `CreateBucket`
leave the name of their record alone, the names are those of the request. -/
theorem Generate_result_names {σ : Type} (c : Collaborators σ) (s : Service σ)
    (req : OnboardingRequest) (res : OnboardingResults)
    (hU : ∀ t u, (c.CreateUser t u).2.1.Name = u.Name)
    (hO : ∀ t o, (c.CreateOrganization t o).2.1.Name = o.Name)
    (hB : ∀ t b, (c.CreateBucket t b).2.1.Name = b.Name)
    (h : (Generate c s (some req)).out = .ok res) :
    res.User.Name = req.User ∧ res.Org.Name = req.Org ∧ res.Bucket.Name = req.Bucket ∧
    ∃ s1 s2 s3 s4 a0,
      (c.CreateUser s { Name := req.User }).2.1 = res.User ∧
      (c.SetPassword s1 res.User.Name req.Password).2 = none ∧
      (c.CreateOrganization s2 { Name := req.Org }).2.1 = res.Org ∧
      (c.CreateBucket s3 { Name := req.Bucket, Organization := res.Org.Name, OrganizationID := res.Org.ID, RetentionPeriod := retentionDuration req.RetentionPeriod }).2.1 = res.Bucket ∧
      (c.CreateAuthorization s4 a0).2.1 = res.Auth ∧
      (⟨.CreateAuthorization a0, none⟩ : Event) ∈ (Generate c s (some req)).calls := by
  obtain ⟨q, hq, _, _, _, _, _, s1, s2, s3, s4, s5, w, rd, h1, h2, h3, h4, _, _, h7, hG⟩ :=
    Generate_ok_inv c s (some req) res h
  cases hq
  have n1 := hU s { Name := req.User }
  have n3 := hO s2 { Name := req.Org }
  have n4 := hB s3 { Name := req.Bucket, Organization := res.Org.Name, OrganizationID := res.Org.ID, RetentionPeriod := retentionDuration req.RetentionPeriod }
  rw [h1] at n1
  rw [h3] at n3
  rw [h4] at n4
  refine ⟨n1, n3, n4, s1, s2, s3, s4, _, by rw [h1], by rw [h2], by rw [h3], by rw [h4],
    by rw [h7], ?_⟩
  rw [hG]; simp

/-- Witness of C7: the scenario request yields the names "admin", "acme" and
"default". -/
theorem Generate_result_names_witness :
    (Generate memCollaborators freshService (some adminRequest)).out = .ok adminResults ∧
    adminResults.User.Name = "admin" ∧ adminResults.Org.Name = "acme" ∧
    adminResults.Bucket.Name = "default" :=
  have h := Generate_result_names memCollaborators freshService adminRequest adminResults
      (by intro t u; simp only [memCollaborators, memCreateUser]; split <;> rfl)
      (by intro t o; simp only [memCollaborators, memCreateOrganization]; split <;> rfl)
      (by intro t b; simp only [memCollaborators, memCreateBucket]; split <;> rfl)
      (by decide)
  ⟨by decide, h.1, h.2.1, h.2.2.1⟩

/-- Counterexample to C8 as stated: for 2,562,048 hours the bucket handed to
`CreateBucket`, and returned, has a retention period of -9,223,371,273,709,551,616
nanoseconds, which is negative and is not 2,562,048 hours. -/
theorem Generate_retention_overflow :
    (Generate memCollaborators freshService
        (some { adminRequest with RetentionPeriod := 2562048 })).calls[3]? =
      some ⟨.CreateBucket { Name := "default", Organization := "acme", OrganizationID := 2, RetentionPeriod := -9223371273709551616 }, none⟩ ∧
    (Generate memCollaborators freshService
        (some { adminRequest with RetentionPeriod := 2562048 })).out =
      .ok { adminResults with
            Bucket := { adminResults.Bucket with RetentionPeriod := -9223371273709551616 } } ∧
    (-9223371273709551616 : Int) ≠ 2562048 * 3600000000000 ∧
    (-9223371273709551616 : Int) < 0 := by
  decide

/-- C8, amended: the bucket `Generate` hands to `CreateBucket` has the retention
period `time.Duration(h) * time.Hour` of 64-bit signed arithmetic, for `h` the
hours of the request; for `h ≤ 2,562,047` that is exactly
`h * 3,600,000,000,000` nanoseconds and not negative, and it is 0 for `h = 0`. -/
theorem Generate_retention_period {σ : Type} (c : Collaborators σ) (s : Service σ)
    (req : OnboardingRequest) (b : Bucket) (e : Option GoError)
    (hm : (⟨.CreateBucket b, e⟩ : Event) ∈ (Generate c s (some req)).calls) :
    b.RetentionPeriod = wrapInt64 (wrapInt64 req.RetentionPeriod * 3600000000000) ∧
    (req.RetentionPeriod ≤ 2562047 →
      b.RetentionPeriod = (req.RetentionPeriod : Int) * 3600000000000 ∧ 0 ≤ b.RetentionPeriod) ∧
    (req.RetentionPeriod = 0 → b.RetentionPeriod = 0) := by
  obtain ⟨o, rfl⟩ := Generate_CreateBucket_mem c s req b e hm
  refine ⟨rfl, ?_, ?_⟩
  · intro hle
    exact retentionDuration_small req.RetentionPeriod hle
  · intro h0
    have := (retentionDuration_small req.RetentionPeriod (by omega)).1
    simp only [this, h0]
    rfl

/-- Witness of C8, amended: one day of retention on a fresh service. -/
theorem Generate_retention_period_witness :
    (⟨.CreateBucket { Name := "default", Organization := "acme", OrganizationID := 2, RetentionPeriod := 86400000000000 }, none⟩ : Event) ∈
      (Generate memCollaborators freshService
        (some { adminRequest with RetentionPeriod := 24 })).calls ∧
    (86400000000000 : Int) = (24 : Nat) * 3600000000000 :=
  have hm : (⟨.CreateBucket { Name := "default", Organization := "acme", OrganizationID := 2, RetentionPeriod := 86400000000000 }, none⟩ : Event) ∈
      (Generate memCollaborators freshService
        (some { adminRequest with RetentionPeriod := 24 })).calls := by decide
  ⟨hm, ((Generate_retention_period memCollaborators freshService
      { adminRequest with RetentionPeriod := 24 } _ _ hm).2.1 (by decide)).1⟩

/-- C9: for a valid request on a service that is still onboarding, when one of
`CreateUser`, `SetPassword`, `CreateOrganization`, `CreateBucket`,
`NewPermissionAtID` for write, `NewPermissionAtID` for read,
`CreateAuthorization` or `PutOnboardingStatus` returns an error `e`, the steps
before it having succeeded, `Generate` returns no results and exactly the error
`e`, in the state the failing call left, and its calls end with the failing
one: no later step is made. In every run an error returned by a call is the
outcome of `Generate` and that call is the last, and the calls made are an
initial part of the eight steps in the order of the source. -/
theorem Generate_passthrough {σ : Type} (c : Collaborators σ) (s : Service σ)
    (req : OnboardingRequest)
    (hon : (IsOnboarding s).1 = true) (hp : req.Password ≠ "") (hu : req.User ≠ "")
    (ho : req.Org ≠ "") (hb : req.Bucket ≠ "") :
    (∀ s1 u e,
      c.CreateUser s { Name := req.User } = (s1, u, some e) →
      Generate c s (some req) =
        ⟨s1,
         [⟨.CreateUser { Name := req.User }, some e⟩],
         .error e⟩) ∧
    (∀ s1 u s2 e,
      c.CreateUser s { Name := req.User } = (s1, u, none) →
      c.SetPassword s1 u.Name req.Password = (s2, some e) →
      Generate c s (some req) =
        ⟨s2,
         [⟨.CreateUser { Name := req.User }, none⟩,
          ⟨.SetPassword u.Name req.Password, some e⟩],
         .error e⟩) ∧
    (∀ s1 u s2 s3 o e,
      c.CreateUser s { Name := req.User } = (s1, u, none) →
      c.SetPassword s1 u.Name req.Password = (s2, none) →
      c.CreateOrganization s2 { Name := req.Org } = (s3, o, some e) →
      Generate c s (some req) =
        ⟨s3,
         [⟨.CreateUser { Name := req.User }, none⟩,
          ⟨.SetPassword u.Name req.Password, none⟩,
          ⟨.CreateOrganization { Name := req.Org }, some e⟩],
         .error e⟩) ∧
    (∀ s1 u s2 s3 o s4 bucket e,
      c.CreateUser s { Name := req.User } = (s1, u, none) →
      c.SetPassword s1 u.Name req.Password = (s2, none) →
      c.CreateOrganization s2 { Name := req.Org } = (s3, o, none) →
      c.CreateBucket s3 { Name := req.Bucket, Organization := o.Name, OrganizationID := o.ID, RetentionPeriod := retentionDuration req.RetentionPeriod } = (s4, bucket, some e) →
      Generate c s (some req) =
        ⟨s4,
         [⟨.CreateUser { Name := req.User }, none⟩,
          ⟨.SetPassword u.Name req.Password, none⟩,
          ⟨.CreateOrganization { Name := req.Org }, none⟩,
          ⟨.CreateBucket { Name := req.Bucket, Organization := o.Name, OrganizationID := o.ID, RetentionPeriod := retentionDuration req.RetentionPeriod }, some e⟩],
         .error e⟩) ∧
    (∀ s1 u s2 s3 o s4 bucket e,
      c.CreateUser s { Name := req.User } = (s1, u, none) →
      c.SetPassword s1 u.Name req.Password = (s2, none) →
      c.CreateOrganization s2 { Name := req.Org } = (s3, o, none) →
      c.CreateBucket s3 { Name := req.Bucket, Organization := o.Name, OrganizationID := o.ID, RetentionPeriod := retentionDuration req.RetentionPeriod } = (s4, bucket, none) →
      c.NewPermissionAtID bucket.ID .WriteAction .BucketsResource = .error e →
      Generate c s (some req) =
        ⟨s4,
         [⟨.CreateUser { Name := req.User }, none⟩,
          ⟨.SetPassword u.Name req.Password, none⟩,
          ⟨.CreateOrganization { Name := req.Org }, none⟩,
          ⟨.CreateBucket { Name := req.Bucket, Organization := o.Name, OrganizationID := o.ID, RetentionPeriod := retentionDuration req.RetentionPeriod }, none⟩,
          ⟨.NewPermissionAtID bucket.ID .WriteAction .BucketsResource, some e⟩],
         .error e⟩) ∧
    (∀ s1 u s2 s3 o s4 bucket w e,
      c.CreateUser s { Name := req.User } = (s1, u, none) →
      c.SetPassword s1 u.Name req.Password = (s2, none) →
      c.CreateOrganization s2 { Name := req.Org } = (s3, o, none) →
      c.CreateBucket s3 { Name := req.Bucket, Organization := o.Name, OrganizationID := o.ID, RetentionPeriod := retentionDuration req.RetentionPeriod } = (s4, bucket, none) →
      c.NewPermissionAtID bucket.ID .WriteAction .BucketsResource = .ok w →
      c.NewPermissionAtID bucket.ID .ReadAction .BucketsResource = .error e →
      Generate c s (some req) =
        ⟨s4,
         [⟨.CreateUser { Name := req.User }, none⟩,
          ⟨.SetPassword u.Name req.Password, none⟩,
          ⟨.CreateOrganization { Name := req.Org }, none⟩,
          ⟨.CreateBucket { Name := req.Bucket, Organization := o.Name, OrganizationID := o.ID, RetentionPeriod := retentionDuration req.RetentionPeriod }, none⟩,
          ⟨.NewPermissionAtID bucket.ID .WriteAction .BucketsResource, none⟩,
          ⟨.NewPermissionAtID bucket.ID .ReadAction .BucketsResource, some e⟩],
         .error e⟩) ∧
    (∀ s1 u s2 s3 o s4 bucket w r s5 auth e,
      c.CreateUser s { Name := req.User } = (s1, u, none) →
      c.SetPassword s1 u.Name req.Password = (s2, none) →
      c.CreateOrganization s2 { Name := req.Org } = (s3, o, none) →
      c.CreateBucket s3 { Name := req.Bucket, Organization := o.Name, OrganizationID := o.ID, RetentionPeriod := retentionDuration req.RetentionPeriod } = (s4, bucket, none) →
      c.NewPermissionAtID bucket.ID .WriteAction .BucketsResource = .ok w →
      c.NewPermissionAtID bucket.ID .ReadAction .BucketsResource = .ok r →
      c.CreateAuthorization s4 { UserID := u.ID, Description := u.Name ++ "\x27s Token", OrgID := o.ID, Permissions := c.OperPermissions ++ c.OrgAdminPermissions o.ID ++ [w, r] } = (s5, auth, some e) →
      Generate c s (some req) =
        ⟨s5,
         [⟨.CreateUser { Name := req.User }, none⟩,
          ⟨.SetPassword u.Name req.Password, none⟩,
          ⟨.CreateOrganization { Name := req.Org }, none⟩,
          ⟨.CreateBucket { Name := req.Bucket, Organization := o.Name, OrganizationID := o.ID, RetentionPeriod := retentionDuration req.RetentionPeriod }, none⟩,
          ⟨.NewPermissionAtID bucket.ID .WriteAction .BucketsResource, none⟩,
          ⟨.NewPermissionAtID bucket.ID .ReadAction .BucketsResource, none⟩,
          ⟨.CreateAuthorization { UserID := u.ID, Description := u.Name ++ "\x27s Token", OrgID := o.ID, Permissions := c.OperPermissions ++ c.OrgAdminPermissions o.ID ++ [w, r] }, some e⟩],
         .error e⟩) ∧
    (∀ s1 u s2 s3 o s4 bucket w r s5 auth s6 e,
      c.CreateUser s { Name := req.User } = (s1, u, none) →
      c.SetPassword s1 u.Name req.Password = (s2, none) →
      c.CreateOrganization s2 { Name := req.Org } = (s3, o, none) →
      c.CreateBucket s3 { Name := req.Bucket, Organization := o.Name, OrganizationID := o.ID, RetentionPeriod := retentionDuration req.RetentionPeriod } = (s4, bucket, none) →
      c.NewPermissionAtID bucket.ID .WriteAction .BucketsResource = .ok w →
      c.NewPermissionAtID bucket.ID .ReadAction .BucketsResource = .ok r →
      c.CreateAuthorization s4 { UserID := u.ID, Description := u.Name ++ "\x27s Token", OrgID := o.ID, Permissions := c.OperPermissions ++ c.OrgAdminPermissions o.ID ++ [w, r] } = (s5, auth, none) →
      PutOnboardingStatus s5 true = (s6, some e) →
      Generate c s (some req) =
        ⟨s6,
         [⟨.CreateUser { Name := req.User }, none⟩,
          ⟨.SetPassword u.Name req.Password, none⟩,
          ⟨.CreateOrganization { Name := req.Org }, none⟩,
          ⟨.CreateBucket { Name := req.Bucket, Organization := o.Name, OrganizationID := o.ID, RetentionPeriod := retentionDuration req.RetentionPeriod }, none⟩,
          ⟨.NewPermissionAtID bucket.ID .WriteAction .BucketsResource, none⟩,
          ⟨.NewPermissionAtID bucket.ID .ReadAction .BucketsResource, none⟩,
          ⟨.CreateAuthorization { UserID := u.ID, Description := u.Name ++ "\x27s Token", OrgID := o.ID, Permissions := c.OperPermissions ++ c.OrgAdminPermissions o.ID ++ [w, r] }, none⟩,
          ⟨.PutOnboardingStatus true, some e⟩],
         .error e⟩) ∧
    (∀ ev e, ev ∈ (Generate c s (some req)).calls → ev.err = some e →
      (Generate c s (some req)).out = .error e ∧
      (Generate c s (some req)).calls.getLast? = some ev) ∧
    (Generate c s (some req)).calls.map (fun x => x.call.name) <+: stepNames := by
  refine ⟨?_, ?_, ?_, ?_, ?_, ?_, ?_, ?_, ?_, ?_⟩
  · intro s1 u e h1
    obtain ⟨s1', u', e1', g1, hc⟩ := Generate_cases c s req hon hp hu ho hb
    rw [h1] at g1; cases g1
    rcases hc with ⟨e0, he0, hG⟩ | ⟨hne, _⟩
    · cases he0; exact hG
    · cases hne
  · intro s1 u s2 e h1 h2
    obtain ⟨s1', u', e1', g1, hc⟩ := Generate_cases c s req hon hp hu ho hb
    rw [h1] at g1; cases g1
    rcases hc with ⟨e0, he0, _⟩ | ⟨_, s2', e2', g2, hc⟩
    · cases he0
    rw [h2] at g2; cases g2
    rcases hc with ⟨e0, he0, hG⟩ | ⟨hne, _⟩
    · cases he0; exact hG
    · cases hne
  · intro s1 u s2 s3 o e h1 h2 h3
    obtain ⟨s1', u', e1', g1, hc⟩ := Generate_cases c s req hon hp hu ho hb
    rw [h1] at g1; cases g1
    rcases hc with ⟨e0, he0, _⟩ | ⟨_, s2', e2', g2, hc⟩
    · cases he0
    rw [h2] at g2; cases g2
    rcases hc with ⟨e0, he0, _⟩ | ⟨_, s3', o', e3', g3, hc⟩
    · cases he0
    rw [h3] at g3; cases g3
    rcases hc with ⟨e0, he0, hG⟩ | ⟨hne, _⟩
    · cases he0; exact hG
    · cases hne
  · intro s1 u s2 s3 o s4 bucket e h1 h2 h3 h4
    obtain ⟨s1', u', e1', g1, hc⟩ := Generate_cases c s req hon hp hu ho hb
    rw [h1] at g1; cases g1
    rcases hc with ⟨e0, he0, _⟩ | ⟨_, s2', e2', g2, hc⟩
    · cases he0
    rw [h2] at g2; cases g2
    rcases hc with ⟨e0, he0, _⟩ | ⟨_, s3', o', e3', g3, hc⟩
    · cases he0
    rw [h3] at g3; cases g3
    rcases hc with ⟨e0, he0, _⟩ | ⟨_, s4', bucket', e4', g4, hc⟩
    · cases he0
    rw [h4] at g4; cases g4
    rcases hc with ⟨e0, he0, hG⟩ | ⟨hne, _⟩
    · cases he0; exact hG
    · cases hne
  · intro s1 u s2 s3 o s4 bucket e h1 h2 h3 h4 h5
    obtain ⟨s1', u', e1', g1, hc⟩ := Generate_cases c s req hon hp hu ho hb
    rw [h1] at g1; cases g1
    rcases hc with ⟨e0, he0, _⟩ | ⟨_, s2', e2', g2, hc⟩
    · cases he0
    rw [h2] at g2; cases g2
    rcases hc with ⟨e0, he0, _⟩ | ⟨_, s3', o', e3', g3, hc⟩
    · cases he0
    rw [h3] at g3; cases g3
    rcases hc with ⟨e0, he0, _⟩ | ⟨_, s4', bucket', e4', g4, hc⟩
    · cases he0
    rw [h4] at g4; cases g4
    rcases hc with ⟨e0, he0, _⟩ | ⟨_, hc⟩
    · cases he0
    rcases hc with ⟨e0, he0, hG⟩ | ⟨x, hx, _⟩
    · rw [h5] at he0; cases he0; exact hG
    · rw [h5] at hx; cases hx
  · intro s1 u s2 s3 o s4 bucket w e h1 h2 h3 h4 h5 h6
    obtain ⟨s1', u', e1', g1, hc⟩ := Generate_cases c s req hon hp hu ho hb
    rw [h1] at g1; cases g1
    rcases hc with ⟨e0, he0, _⟩ | ⟨_, s2', e2', g2, hc⟩
    · cases he0
    rw [h2] at g2; cases g2
    rcases hc with ⟨e0, he0, _⟩ | ⟨_, s3', o', e3', g3, hc⟩
    · cases he0
    rw [h3] at g3; cases g3
    rcases hc with ⟨e0, he0, _⟩ | ⟨_, s4', bucket', e4', g4, hc⟩
    · cases he0
    rw [h4] at g4; cases g4
    rcases hc with ⟨e0, he0, _⟩ | ⟨_, hc⟩
    · cases he0
    rcases hc with ⟨e0, he0, _⟩ | ⟨w', g5, hc⟩
    · rw [h5] at he0; cases he0
    rw [h5] at g5; cases g5
    rcases hc with ⟨e0, he0, hG⟩ | ⟨x, hx, _⟩
    · rw [h6] at he0; cases he0; exact hG
    · rw [h6] at hx; cases hx
  · intro s1 u s2 s3 o s4 bucket w r s5 auth e h1 h2 h3 h4 h5 h6 h7
    obtain ⟨s1', u', e1', g1, hc⟩ := Generate_cases c s req hon hp hu ho hb
    rw [h1] at g1; cases g1
    rcases hc with ⟨e0, he0, _⟩ | ⟨_, s2', e2', g2, hc⟩
    · cases he0
    rw [h2] at g2; cases g2
    rcases hc with ⟨e0, he0, _⟩ | ⟨_, s3', o', e3', g3, hc⟩
    · cases he0
    rw [h3] at g3; cases g3
    rcases hc with ⟨e0, he0, _⟩ | ⟨_, s4', bucket', e4', g4, hc⟩
    · cases he0
    rw [h4] at g4; cases g4
    rcases hc with ⟨e0, he0, _⟩ | ⟨_, hc⟩
    · cases he0
    rcases hc with ⟨e0, he0, _⟩ | ⟨w', g5, hc⟩
    · rw [h5] at he0; cases he0
    rw [h5] at g5; cases g5
    rcases hc with ⟨e0, he0, _⟩ | ⟨r', g6, s5', auth', e5', g7, hc⟩
    · rw [h6] at he0; cases he0
    rw [h6] at g6; cases g6
    rw [h7] at g7; cases g7
    rcases hc with ⟨e0, he0, hG⟩ | ⟨hne, _⟩
    · cases he0; exact hG
    · cases hne
  · intro s1 u s2 s3 o s4 bucket w r s5 auth s6 e h1 h2 h3 h4 h5 h6 h7 h8
    simp [PutOnboardingStatus] at h8
  · intro ev e hm he
    exact ⟨(Generate_calls_error_last c s req ev e hm he).1,
      (Generate_calls_error_last c s req ev e hm he).2.1⟩
  · exact Generate_calls_shape c s req

/-- Witness of C9: the organization name is taken, so `CreateOrganization`
fails third; its error comes back and nothing is called after it. -/
theorem Generate_passthrough_witness :
    memCollaborators.CreateOrganization
        (memCollaborators.SetPassword
          (memCollaborators.CreateUser seededService { Name := "admin" }).1 "admin" "pw123").1
        { Name := "acme" } =
      ((memCollaborators.SetPassword
          (memCollaborators.CreateUser seededService { Name := "admin" }).1 "admin" "pw123").1,
       { Name := "acme" }, some (.platform .EConflict "organization already exists")) ∧
    Generate memCollaborators seededService (some adminRequest) =
      ⟨(memCollaborators.SetPassword
          (memCollaborators.CreateUser seededService { Name := "admin" }).1 "admin" "pw123").1,
       [⟨.CreateUser { Name := "admin" }, none⟩,
        ⟨.SetPassword "admin" "pw123", none⟩,
        ⟨.CreateOrganization { Name := "acme" },
          some (.platform .EConflict "organization already exists")⟩],
       .error (.platform .EConflict "organization already exists")⟩ :=
  ⟨rfl,
   (Generate_passthrough memCollaborators seededService adminRequest
      (by decide) (by decide) (by decide) (by decide) (by decide)).2.2.1
      (memCollaborators.CreateUser seededService { Name := "admin" }).1
      { ID := 8, Name := "admin" }
      (memCollaborators.SetPassword
          (memCollaborators.CreateUser seededService { Name := "admin" }).1 "admin" "pw123").1
      (memCollaborators.SetPassword
          (memCollaborators.CreateUser seededService { Name := "admin" }).1 "admin" "pw123").1
      { Name := "acme" }
      (.platform .EConflict "organization already exists")
      rfl rfl rfl⟩

/-- C10: with collaborators that leave the onboarding map alone, a `Generate`
that returns an error leaves `IsOnboarding` answering as before the call; on a
service where no flag was ever stored it still answers true, a retried call is
not turned away by the conflict check, and a retried valid request starts
again at `CreateUser`. -/
theorem Generate_error_keeps_flag {σ : Type} (c : Collaborators σ) (s : Service σ)
    (req : Option OnboardingRequest) (e : GoError) (hK : KeepsOnboardingKV c)
    (h : (Generate c s req).out = .error e) :
    IsOnboarding (Generate c s req).state = IsOnboarding s ∧
    (s.onboardingKV.Load onboardingKey = none →
      IsOnboarding (Generate c s req).state = (true, none) ∧
      (∀ retry, (Generate c (Generate c s req).state retry).calls = [] →
        (Generate c (Generate c s req).state retry).out ≠
          .error (.platform .EConflict "onboarding has already been completed")) ∧
      (∀ retry : OnboardingRequest, retry.Password ≠ "" → retry.User ≠ "" → retry.Org ≠ "" →
        retry.Bucket ≠ "" →
        (Generate c (Generate c s req).state (some retry)).calls.head? =
          some ⟨.CreateUser { Name := retry.User },
            (c.CreateUser (Generate c s req).state { Name := retry.User }).2.2⟩)) := by
  have hkv := Generate_error_kv c s req e hK h
  have hsame := IsOnboarding_congr s (Generate c s req).state hkv
  refine ⟨hsame, ?_⟩
  intro hl
  have ht : IsOnboarding (Generate c s req).state = (true, none) := by
    rw [hsame]; simp [IsOnboarding, hl]
  have hon : (IsOnboarding (Generate c s req).state).1 = true := by rw [ht]
  refine ⟨ht, ?_, ?_⟩
  · intro retry hnil
    cases retry with
    | none => rw [Generate_nil c _ hon]; simp
    | some r =>
      by_cases hv : r.Password = "" ∨ r.User = "" ∨ r.Org = "" ∨ r.Bucket = ""
      · obtain ⟨msg, hmsg⟩ := Generate_invalid c _ r hon hv
        rw [hmsg]; simp
      · simp only [not_or] at hv
        have hh := Generate_valid_head c _ r hon hv.1 hv.2.1 hv.2.2.1 hv.2.2.2
        rw [hnil] at hh
        simp at hh
  · intro retry hp hu ho hb
    exact Generate_valid_head c _ retry hon hp hu ho hb

/-- Witness of C10: the run that fails at `CreateOrganization` leaves a service
that is still onboarding, with one user more than before. -/
theorem Generate_error_keeps_flag_witness :
    (Generate memCollaborators seededService (some adminRequest)).out =
      .error (.platform .EConflict "organization already exists") ∧
    IsOnboarding (Generate memCollaborators seededService (some adminRequest)).state =
      (true, none) ∧
    (Generate memCollaborators seededService (some adminRequest)).state.stores.users =
      [{ ID := 8, Name := "admin" }] :=
  ⟨by decide,
   ((Generate_error_keeps_flag memCollaborators seededService (some adminRequest)
      (.platform .EConflict "organization already exists")
      memCollaborators_keeps (by decide)).2 (by decide)).1,
   by decide⟩

/-- C11: when a valid request on a service that is still onboarding ends in an
error, the calls before the last one all succeeded, the last one returned that
error, and the state `Generate` leaves is the state reached by making exactly
those calls in order, nothing being undone; when a failing method stores
nothing, it is the state reached by the successful calls alone. -/
theorem Generate_no_rollback {σ : Type} (c : Collaborators σ) (s : Service σ)
    (req : OnboardingRequest) (e : GoError)
    (hon : (IsOnboarding s).1 = true) (hp : req.Password ≠ "") (hu : req.User ≠ "")
    (ho : req.Org ≠ "") (hb : req.Bucket ≠ "")
    (h : (Generate c s (some req)).out = .error e) :
    (∀ x ∈ (Generate c s (some req)).calls.dropLast, x.err = none) ∧
    (Generate c s (some req)).calls.getLast?.map Event.err = some (some e) ∧
    (Generate c s (some req)).state =
      replay c s ((Generate c s (some req)).calls.map Event.call) ∧
    (FailsClean c →
      (Generate c s (some req)).state =
        replay c s ((Generate c s (some req)).calls.dropLast.map Event.call)) := by
  obtain ⟨s1, u, e1, h1, hc⟩ := Generate_cases c s req hon hp hu ho hb
  rcases hc with ⟨e0, rfl, hG⟩ | ⟨rfl, s2, e2, h2, hc⟩
  · rw [hG] at h ⊢
    simp only [Outcome.error.injEq] at h
    subst h
    refine ⟨by simp, rfl, by simp only [replay, applyCall, List.map, List.foldl, List.dropLast, h1], ?_⟩
    intro hF
    have := hF.1 s { Name := req.User } (by rw [h1]; simp)
    rw [h1] at this
    simp only [replay, List.map, List.foldl, List.dropLast]
    exact this
  rcases hc with ⟨e0, rfl, hG⟩ | ⟨rfl, s3, o, e3, h3, hc⟩
  · rw [hG] at h ⊢
    simp only [Outcome.error.injEq] at h
    subst h
    refine ⟨by simp, rfl, by simp only [replay, applyCall, List.map, List.foldl, List.dropLast, h1, h2], ?_⟩
    intro hF
    have := hF.2.1 s1 u.Name req.Password (by rw [h2]; simp)
    rw [h2] at this
    simp only [replay, applyCall, List.map, List.foldl, List.dropLast, h1]
    exact this
  rcases hc with ⟨e0, rfl, hG⟩ | ⟨rfl, s4, bucket, e4, h4, hc⟩
  · rw [hG] at h ⊢
    simp only [Outcome.error.injEq] at h
    subst h
    refine ⟨by simp, rfl, by simp only [replay, applyCall, List.map, List.foldl, List.dropLast, h1, h2, h3], ?_⟩
    intro hF
    have := hF.2.2.1 s2 { Name := req.Org } (by rw [h3]; simp)
    rw [h3] at this
    simp only [replay, applyCall, List.map, List.foldl, List.dropLast, h1, h2]
    exact this
  rcases hc with ⟨e0, rfl, hG⟩ | ⟨rfl, hc⟩
  · rw [hG] at h ⊢
    simp only [Outcome.error.injEq] at h
    subst h
    refine ⟨by simp, rfl, by simp only [replay, applyCall, List.map, List.foldl, List.dropLast, h1, h2, h3, h4], ?_⟩
    intro hF
    have := hF.2.2.2.1 s3 { Name := req.Bucket, Organization := o.Name, OrganizationID := o.ID, RetentionPeriod := retentionDuration req.RetentionPeriod } (by rw [h4]; simp)
    rw [h4] at this
    simp only [replay, applyCall, List.map, List.foldl, List.dropLast, h1, h2, h3]
    exact this
  rcases hc with ⟨e0, _, hG⟩ | ⟨w, h5, hc⟩
  · rw [hG] at h ⊢
    simp only [Outcome.error.injEq] at h
    subst h
    refine ⟨by simp, rfl, by simp only [replay, applyCall, List.map, List.foldl, List.dropLast, h1, h2, h3, h4], ?_⟩
    intro hF
    simp only [replay, applyCall, List.map, List.foldl, List.dropLast, h1, h2, h3, h4]
  rcases hc with ⟨e0, _, hG⟩ | ⟨rd, h6, s5, auth, e5, h7, hc⟩
  · rw [hG] at h ⊢
    simp only [Outcome.error.injEq] at h
    subst h
    refine ⟨by simp, rfl, by simp only [replay, applyCall, List.map, List.foldl, List.dropLast, h1, h2, h3, h4], ?_⟩
    intro hF
    simp only [replay, applyCall, List.map, List.foldl, List.dropLast, h1, h2, h3, h4]
  rcases hc with ⟨e0, rfl, hG⟩ | ⟨rfl, hG⟩
  · rw [hG] at h ⊢
    simp only [Outcome.error.injEq] at h
    subst h
    refine ⟨by simp, rfl, by simp only [replay, applyCall, List.map, List.foldl, List.dropLast, h1, h2, h3, h4, h7], ?_⟩
    intro hF
    have := hF.2.2.2.2 s4 { UserID := u.ID, Description := u.Name ++ "\x27s Token", OrgID := o.ID, Permissions := c.OperPermissions ++ c.OrgAdminPermissions o.ID ++ [w, rd] } (by rw [h7]; simp)
    rw [h7] at this
    simp only [replay, applyCall, List.map, List.foldl, List.dropLast, h1, h2, h3, h4]
    exact this
  · rw [hG] at h; cases h

/-- Witness of C11: `CreateOrganization` fails third; the state is the one the
two successful calls produce, with the user and the password in place. -/
theorem Generate_no_rollback_witness :
    (Generate memCollaborators seededService (some adminRequest)).out =
      .error (.platform .EConflict "organization already exists") ∧
    (Generate memCollaborators seededService (some adminRequest)).state =
      replay memCollaborators seededService
        ((Generate memCollaborators seededService (some adminRequest)).calls.dropLast.map
          Event.call) ∧
    (Generate memCollaborators seededService (some adminRequest)).calls.dropLast.map Event.call =
      [.CreateUser { Name := "admin" }, .SetPassword "admin" "pw123"] ∧
    (Generate memCollaborators seededService (some adminRequest)).state.stores.users =
      [{ ID := 8, Name := "admin" }] ∧
    (Generate memCollaborators seededService (some adminRequest)).state.stores.passwords =
      [("admin", "pw123")] :=
  ⟨by decide,
   (Generate_no_rollback memCollaborators seededService adminRequest
      (.platform .EConflict "organization already exists")
      (by decide) (by decide) (by decide) (by decide) (by decide) (by decide)).2.2.2
      memCollaborators_failsClean,
   by decide, by decide, by decide⟩

/-- C12: `IsOnboarding` returns true exactly when nothing is stored under the
onboarding key or false is stored there; "onboarding complete", its negation,
holds exactly when true is stored. -/
theorem IsOnboarding_reads_flag {σ : Type} (s : Service σ) :
    ((IsOnboarding s).1 = true ↔
      s.onboardingKV.Load onboardingKey = none ∨
        s.onboardingKV.Load onboardingKey = some false) ∧
    ((!(IsOnboarding s).1) = true ↔ s.onboardingKV.Load onboardingKey = some true) ∧
    (s.onboardingKV.Load onboardingKey = none → (!(IsOnboarding s).1) = false) ∧
    (s.onboardingKV.Load onboardingKey = some false → (!(IsOnboarding s).1) = false) := by
  refine ⟨IsOnboarding_true_iff s, ?_, ?_, ?_⟩
  · rw [← IsOnboarding_false_iff s]; simp
  · intro h; simp [IsOnboarding, h]
  · intro h; simp [IsOnboarding, h]

/-- Counterexample to C13 as stated: after `PutOnboardingStatus(true)` on a
fresh service `IsOnboarding` returns false, not true, and after
`PutOnboardingStatus(false)` it returns true. -/
theorem IsOnboarding_Put_not_identity :
    (IsOnboarding (PutOnboardingStatus freshService true).1).1 = false ∧
    (PutOnboardingStatus freshService true).1.onboardingKV.Load onboardingKey = some true ∧
    (IsOnboarding (PutOnboardingStatus freshService false).1).1 = true := by
  decide

/-- C13, amended: `PutOnboardingStatus(v)` stores `v` under the onboarding key,
and `IsOnboarding` evaluated afterwards returns the negation of `v`, with a nil
error: the stored value says that onboarding is complete. -/
theorem IsOnboarding_after_Put {σ : Type} (s : Service σ) (v : Bool) :
    (PutOnboardingStatus s v).1.onboardingKV.Load onboardingKey = some v ∧
    IsOnboarding (PutOnboardingStatus s v).1 = (!v, none) :=
  ⟨Load_Store s.onboardingKV onboardingKey v, IsOnboarding_Put s v⟩

/-- C14: `IsOnboarding` and `PutOnboardingStatus(v)` return a nil error;
`PutOnboardingStatus` sets the value under the onboarding key to `v` and leaves
every other key of the map and every other field of the service as it was;
`IsOnboarding` only loads from the map. -/
theorem flag_store_total {σ : Type} (s : Service σ) (v : Bool) :
    (IsOnboarding s).2 = none ∧
    (PutOnboardingStatus s v).2 = none ∧
    (PutOnboardingStatus s v).1.onboardingKV.Load onboardingKey = some v ∧
    (∀ k, k ≠ onboardingKey →
      (PutOnboardingStatus s v).1.onboardingKV.Load k = s.onboardingKV.Load k) ∧
    (PutOnboardingStatus s v).1.stores = s.stores ∧
    IsOnboarding s = (match s.onboardingKV.Load onboardingKey with
      | none => true
      | some b => !b, none) := by
  refine ⟨?_, rfl, Load_Store s.onboardingKV onboardingKey v, ?_, rfl, ?_⟩
  · rw [IsOnboarding_eq s]
  · intro k hk
    exact Load_Store_ne s.onboardingKV k onboardingKey v hk
  · unfold IsOnboarding
    cases s.onboardingKV.Load onboardingKey <;> rfl

/-- C15: `NotificationEndpointUpdate.Valid` returns nil exactly when the name
is nil or non-empty, the description is nil or non-empty, and the status is nil
or valid; otherwise it returns the first failure in the order name,
description, status: the `EInvalid` error for an empty name, the `EInvalid`
error for an empty description, or the error of `Status.Valid` unchanged. The
update with all three fields nil is valid. -/
theorem NotificationEndpointUpdate_Valid_spec {Status : Type}
    (statusValid : Status → Option GoError) (n : NotificationEndpointUpdate Status) :
    (n.Valid statusValid = none ↔
      (n.Name = none ∨ ∃ x, n.Name = some x ∧ x ≠ "") ∧
      (n.Description = none ∨ ∃ x, n.Description = some x ∧ x ≠ "") ∧
      (n.Status = none ∨ ∃ st, n.Status = some st ∧ statusValid st = none)) ∧
    (n.Name = some "" →
      n.Valid statusValid =
        some (.platform .EInvalid "Notification Endpoint Name can\x27t be empty")) ∧
    (n.Name ≠ some "" → n.Description = some "" →
      n.Valid statusValid =
        some (.platform .EInvalid "Notification Endpoint Description can\x27t be empty")) ∧
    (n.Name ≠ some "" → n.Description ≠ some "" →
      ∀ st, n.Status = some st → n.Valid statusValid = statusValid st) ∧
    (NotificationEndpointUpdate.Valid statusValid { } = none) := by
  obtain ⟨name, desc, status⟩ := n
  refine ⟨?_, ?_, ?_, ?_, ?_⟩
  · unfold NotificationEndpointUpdate.Valid
    simp only
    by_cases hn : name = some ""
    · subst hn; simp
    by_cases hd : desc = some ""
    · subst hd; simp [hn]
    have hn' : name = none ∨ ∃ x, name = some x ∧ x ≠ "" := by
      cases name with
      | none => exact Or.inl rfl
      | some x => exact Or.inr ⟨x, rfl, fun hx => hn (by rw [hx])⟩
    have hd' : desc = none ∨ ∃ x, desc = some x ∧ x ≠ "" := by
      cases desc with
      | none => exact Or.inl rfl
      | some x => exact Or.inr ⟨x, rfl, fun hx => hd (by rw [hx])⟩
    simp only [hn, hd, if_false, hn', hd', true_and]
    cases status with
    | none => simp
    | some st =>
      cases hs : statusValid st with
      | none => simp [hs]
      | some err => simp [hs]
  · intro hn
    simp only at hn
    simp [NotificationEndpointUpdate.Valid, hn]
  · intro hn hd
    simp only at hn hd
    simp [NotificationEndpointUpdate.Valid, hn, hd]
  · intro hn hd st hst
    simp only at hn hd hst
    simp only [NotificationEndpointUpdate.Valid, hn, hd, hst, if_false]
    cases statusValid st <;> rfl
  · simp [NotificationEndpointUpdate.Valid]

/-- C16, the code at the failing input: a filter whose only set field is `ID`
yields the empty map, the same map as the filter with nothing set, so the `ID`
field has no entry and two filters that differ in it are not told apart. -/
theorem QueryParams_drops_ID (idString : ID → String) :
    (NotificationEndpointFilter.QueryParams idString { ID := some 1 }).entries = [] ∧
    NotificationEndpointFilter.QueryParams idString { ID := some 1 } =
      NotificationEndpointFilter.QueryParams idString { ID := some 2 } ∧
    NotificationEndpointFilter.QueryParams idString { ID := some 1 } =
      NotificationEndpointFilter.QueryParams idString { } :=
  ⟨rfl, rfl, rfl⟩

/-- C17: on success the records refer to each other as the code builds them:
`SetPassword` is called with the name of the user as `CreateUser` returned it
and the password of the request; the bucket handed to `CreateBucket` carries
the identifier and the name of the organization as `CreateOrganization`
returned it; the authorization handed to `CreateAuthorization` carries the
identifier of that user, the identifier of that organization, and the
description made of the user name followed by "'s Token". -/
theorem Generate_cross_references {σ : Type} (c : Collaborators σ) (s : Service σ)
    (req : OnboardingRequest) (res : OnboardingResults)
    (h : (Generate c s (some req)).out = .ok res) :
    ∃ s1 s2 s3 b0 a0,
      c.CreateUser s { Name := req.User } = (s1, res.User, none) ∧
      c.CreateOrganization s2 { Name := req.Org } = (s3, res.Org, none) ∧
      (Generate c s (some req)).calls[1]? = some ⟨.SetPassword res.User.Name req.Password, none⟩ ∧
      (Generate c s (some req)).calls[3]? = some ⟨.CreateBucket b0, none⟩ ∧
      b0.OrganizationID = res.Org.ID ∧ b0.Organization = res.Org.Name ∧ b0.Name = req.Bucket ∧
      (Generate c s (some req)).calls[6]? = some ⟨.CreateAuthorization a0, none⟩ ∧
      a0.UserID = res.User.ID ∧ a0.OrgID = res.Org.ID ∧
      a0.Description = res.User.Name ++ "\x27s Token" := by
  obtain ⟨q, hq, _, _, _, _, _, s1, s2, s3, s4, s5, w, rd, h1, h2, h3, h4, _, _, h7, hG⟩ :=
    Generate_ok_inv c s (some req) res h
  cases hq
  refine ⟨s1, s2, s3, { Name := req.Bucket, Organization := res.Org.Name, OrganizationID := res.Org.ID, RetentionPeriod := retentionDuration req.RetentionPeriod }, { UserID := res.User.ID, Description := res.User.Name ++ "\x27s Token", OrgID := res.Org.ID, Permissions := c.OperPermissions ++ c.OrgAdminPermissions res.Org.ID ++ [w, rd] }, h1, h3, ?_, ?_, rfl, rfl, rfl, ?_, rfl, rfl, rfl⟩
  · rw [hG]; rfl
  · rw [hG]; rfl
  · rw [hG]; rfl

/-- Witness of C17: the scenario run; user 1 and organization 2 are referred to
by the bucket and the authorization. -/
theorem Generate_cross_references_witness :
    (Generate memCollaborators freshService (some adminRequest)).out = .ok adminResults ∧
    ∃ s1 s2 s3 b0 a0,
      memCollaborators.CreateUser freshService { Name := "admin" } =
        (s1, { ID := 1, Name := "admin" }, none) ∧
      memCollaborators.CreateOrganization s2 { Name := "acme" } =
        (s3, { ID := 2, Name := "acme" }, none) ∧
      (Generate memCollaborators freshService (some adminRequest)).calls[1]? =
        some ⟨.SetPassword "admin" "pw123", none⟩ ∧
      (Generate memCollaborators freshService (some adminRequest)).calls[3]? =
        some ⟨.CreateBucket b0, none⟩ ∧
      b0.OrganizationID = 2 ∧ b0.Organization = "acme" ∧ b0.Name = "default" ∧
      (Generate memCollaborators freshService (some adminRequest)).calls[6]? =
        some ⟨.CreateAuthorization a0, none⟩ ∧
      a0.UserID = 1 ∧ a0.OrgID = 2 ∧ a0.Description = "admin" ++ "\x27s Token" :=
  ⟨by decide,
   Generate_cross_references memCollaborators freshService adminRequest adminResults (by decide)⟩

/-- C18: for a non-nil request `Generate` returns results with a nil error
exactly when the onboarding flag is absent or false, the four fields are
non-empty, and `CreateUser`, `SetPassword`, `CreateOrganization`,
`CreateBucket`, both `NewPermissionAtID` calls and `CreateAuthorization`
succeed in turn; `PutOnboardingStatus` never returns an error, and the
successful run leaves the flag set, so that `IsOnboarding` then returns false. -/
theorem Generate_ok_iff {σ : Type} (c : Collaborators σ) (s : Service σ)
    (req : OnboardingRequest) :
    ((∃ res, (Generate c s (some req)).out = .ok res) ↔
      (s.onboardingKV.Load onboardingKey = none ∨
        s.onboardingKV.Load onboardingKey = some false) ∧
      req.Password ≠ "" ∧ req.User ≠ "" ∧ req.Org ≠ "" ∧ req.Bucket ≠ "" ∧
      ∃ s1 u s2 s3 o s4 bucket w r s5 auth,
        c.CreateUser s { Name := req.User } = (s1, u, none) ∧
        c.SetPassword s1 u.Name req.Password = (s2, none) ∧
        c.CreateOrganization s2 { Name := req.Org } = (s3, o, none) ∧
        c.CreateBucket s3 { Name := req.Bucket, Organization := o.Name, OrganizationID := o.ID, RetentionPeriod := retentionDuration req.RetentionPeriod } = (s4, bucket, none) ∧
        c.NewPermissionAtID bucket.ID .WriteAction .BucketsResource = .ok w ∧
        c.NewPermissionAtID bucket.ID .ReadAction .BucketsResource = .ok r ∧
        c.CreateAuthorization s4 { UserID := u.ID, Description := u.Name ++ "\x27s Token", OrgID := o.ID, Permissions := c.OperPermissions ++ c.OrgAdminPermissions o.ID ++ [w, r] } = (s5, auth, none)) ∧
    (∀ (t : Service σ) v, (PutOnboardingStatus t v).2 = none) ∧
    (∀ res, (Generate c s (some req)).out = .ok res →
      (Generate c s (some req)).state.onboardingKV.Load onboardingKey = some true ∧
      IsOnboarding (Generate c s (some req)).state = (false, none)) := by
  refine ⟨⟨?_, ?_⟩, fun _ _ => rfl, ?_⟩
  · rintro ⟨res, h⟩
    obtain ⟨q, hq, hon, hp, hu, ho, hb, s1, s2, s3, s4, s5, w, rd, h1, h2, h3, h4, h5, h6, h7, _⟩ :=
      Generate_ok_inv c s (some req) res h
    cases hq
    exact ⟨(IsOnboarding_true_iff s).1 hon, hp, hu, ho, hb,
      s1, res.User, s2, s3, res.Org, s4, res.Bucket, w, rd, s5, res.Auth,
      h1, h2, h3, h4, h5, h6, h7⟩
  · rintro ⟨hl, hp, hu, ho, hb, s1, u, s2, s3, o, s4, bucket, w, r, s5, auth,
      h1, h2, h3, h4, h5, h6, h7⟩
    have hon := (IsOnboarding_true_iff s).2 hl
    refine ⟨{ User := u, Org := o, Bucket := bucket, Auth := auth }, ?_⟩
    unfold Generate
    rw [IsOnboarding_eq s, hon]
    simp only [hp, hu, ho, hb, if_false, Bool.not_true, Bool.false_eq_true, h1, h2, h3, h4, h5,
      h6, h7, PutOnboardingStatus]
  · intro res h
    have hf := Generate_ok_flag c s (some req) res h
    refine ⟨?_, hf⟩
    apply (IsOnboarding_false_iff _).1
    rw [hf]

/-- C19: the map `QueryParams` returns has the key "orgID" exactly when
`OrgID` is set, with the one-element value `[OrgID.String()]`, the key "org"
exactly when `Organization` is set, with the one-element value
`[*Organization]`, and no other key; the filter with nothing set yields the
empty map, and the field `ID` has no influence on the result. -/
theorem QueryParams_shape (idString : ID → String) (f : NotificationEndpointFilter) :
    (f.QueryParams idString).get? "orgID" = f.OrgID.map (fun i => [idString i]) ∧
    (f.QueryParams idString).get? "org" = f.Organization.map (fun o => [o]) ∧
    (∀ k, k ≠ "orgID" → k ≠ "org" → (f.QueryParams idString).get? k = none) ∧
    (f.QueryParams idString).entries.map Prod.fst =
      (if f.OrgID.isSome then ["orgID"] else []) ++
        (if f.Organization.isSome then ["org"] else []) ∧
    NotificationEndpointFilter.QueryParams idString { } = { } ∧
    (∀ x, NotificationEndpointFilter.QueryParams idString { f with ID := x } =
      f.QueryParams idString) := by
  obtain ⟨id, orgID, org⟩ := f
  cases orgID <;> cases org <;>
    simp [NotificationEndpointFilter.QueryParams, QueryMap.set, QueryMap.get?, List.lookup]
  all_goals
    intro k h1 h2
    have e1 : (k == "orgID") = false := by simpa using h1
    have e2 : (k == "org") = false := by simpa using h2
    simp only [e1, e2]

end Onboarding
